import Mathlib

/-
Verification development for the heuristic code-analysis engine of the
code-review-buddy repository (src/src/utils/languageDetection.ts).

The JavaScript/TypeScript source is shallowly embedded: JS strings are
lists of characters (`Str`), the JS regular expressions used by the source
are embedded as values of a small regex AST (`Re`) evaluated by a
fuel-based backtracking matcher that follows JS semantics (leftmost match,
greedy quantifiers, `lastIndex` statefulness of `RegExp.test` on global
regexes), and each exported function of the source file is translated
definition by definition, keeping its name.
-/

namespace CRB

/-- JS strings are modelled as lists of characters. -/
abbrev Str := List Char

/-- The characters matched by the JS `\s` class (ASCII part), which is also
the character set removed by `String.prototype.trim`. -/
def isSpaceChar (c : Char) : Bool :=
  c = ' ' || c = '\t' || c = '\n' || c = '\r' || c = '\x0b' || c = '\x0c'

/-- JS `\d`. -/
def isDigitChar (c : Char) : Bool :=
  '0' ≤ c && c ≤ '9'

/-- JS `\w`. -/
def isWordChar (c : Char) : Bool :=
  ('a' ≤ c && c ≤ 'z') || ('A' ≤ c && c ≤ 'Z') || isDigitChar c || c = '_'

/-- `String.prototype.trimStart`. -/
def strTrimStart (s : Str) : Str := s.dropWhile (fun c => isSpaceChar c)

/-- `String.prototype.trimEnd` / `trimRight`. -/
def strTrimEnd (s : Str) : Str := (s.reverse.dropWhile (fun c => isSpaceChar c)).reverse

/-- `String.prototype.trim`. -/
def strTrim (s : Str) : Str := strTrimEnd (strTrimStart s)

/-- Does `s` start with `p`? (`String.prototype.startsWith`). -/
def strStarts : Str → Str → Bool
  | _, [] => true
  | [], _ :: _ => false
  | c :: s, d :: p => c = d && strStarts s p

/-- Does `s` end with `p`? (`String.prototype.endsWith`). -/
def strEnds (s p : Str) : Bool := strStarts s.reverse p.reverse

/-- `String.prototype.includes`: `sub` occurs somewhere in `s`. -/
def strIncludes : Str → Str → Bool
  | s, sub =>
    strStarts s sub ||
      match s with
      | [] => false
      | _ :: t => strIncludes t sub

/-- Number of non-overlapping left-to-right occurrences of the literal `pat`
in `s`: the length of the array returned by
`s.match(new RegExp(escape(pat), 'g'))` for a non-empty literal `pat`. -/
def countOccurAux : Nat → Str → Str → Nat
  | 0, _, _ => 0
  | Nat.succ fuel, pat, s =>
    match s with
    | [] => 0
    | _ :: t =>
      if strStarts s pat then 1 + countOccurAux fuel pat (s.drop pat.length)
      else countOccurAux fuel pat t

def countOccur (pat s : Str) : Nat := countOccurAux (s.length + 1) pat s

/-- Number of occurrences of the single character `c` in `s`
(`(code.match(new RegExp('\\c', 'g')) || []).length`). -/
def countChar (c : Char) (s : Str) : Nat := s.count c

/-- `text.split('\n')` — always returns one more part than there are
newline characters; the empty string splits to `[""]`. -/
def splitLines : Str → List Str
  | [] => [[]]
  | c :: t =>
    if c = '\n' then [] :: splitLines t
    else
      match splitLines t with
      | h :: r => (c :: h) :: r
      | [] => [[c]]

/-- Decimal representation of a natural number, as produced by JS template
interpolation of a non-negative integer. -/
def decReprAux : Nat → Nat → Str → Str
  | 0, _, acc => acc
  | Nat.succ fuel, n, acc =>
    let d : Char := Char.ofNat (48 + n % 10)
    if n < 10 then d :: acc else decReprAux fuel (n / 10) (d :: acc)

def decRepr (n : Nat) : Str := decReprAux (n + 1) n []

/-- Shorthand: the character list of a Lean string literal. -/
def strL (s : String) : Str := s.data

/-- A `Line ${n}: ...` message, as built by the source's template literals. -/
def lineMsg (n : Nat) (tail : Str) : Str :=
  strL "Line " ++ decRepr n ++ strL ": " ++ tail

/- ===================== JS regular expressions ===================== -/

/-- Character-class atoms. -/
inductive CC where
  | lit (c : Char)
  | rng (lo hi : Char)
  | word
  | space
  | digit

/-- Case folding used for the JS `i` flag (ASCII). -/
def foldCase (c : Char) : Char :=
  if 'A' ≤ c && c ≤ 'Z' then Char.ofNat (c.toNat + 32) else c

def chEq (ic : Bool) (a b : Char) : Bool :=
  if ic then foldCase a = foldCase b else a = b

def ccMatch (ic : Bool) (a : CC) (c : Char) : Bool :=
  match a with
  | .lit d => chEq ic d c
  | .rng lo hi => lo ≤ c && c ≤ hi
  | .word => isWordChar c
  | .space => isSpaceChar c
  | .digit => isDigitChar c

/-- Regex AST covering the constructs used by the source file:
literals, character classes, `.`, concatenation, alternation, greedy `*`,
negative lookahead, the `^`/`$` anchors and the `\b` word boundary. -/
inductive Re where
  | eps
  | lit (s : Str)
  | cls (neg : Bool) (atoms : List CC)
  | anyc
  | cat (a b : Re)
  | alt (a b : Re)
  | star (a : Re)
  | nla (a : Re)
  | bol
  | eol
  | wb

/-- The regex flags appearing in the source: `i`, `m`, `s`. -/
structure RFlags where
  ic : Bool
  ml : Bool
  da : Bool

def fN : RFlags := ⟨false, false, false⟩
def fI : RFlags := ⟨true, false, false⟩
def fM : RFlags := ⟨false, true, false⟩
def fS : RFlags := ⟨false, false, true⟩

/-- Literal match at position `i` (respecting the `i` flag). -/
def litAtAux (ic : Bool) : Str → Str → Bool
  | _, [] => true
  | [], _ :: _ => false
  | c :: s, d :: p => chEq ic c d && litAtAux ic s p

def litAt (ic : Bool) (full : Str) (i : Nat) (p : Str) : Bool :=
  litAtAux ic (full.drop i) p

/-- JS `\b`: position `i` is a word boundary in `full`. -/
def wbAt (full : Str) (i : Nat) : Bool :=
  let before :=
    match i with
    | 0 => false
    | Nat.succ j =>
      match full.get? j with
      | some c => isWordChar c
      | none => false
  let after :=
    match full.get? i with
    | some c => isWordChar c
    | none => false
  before != after

/-- All end positions of a match of `re` starting at position `i` of `full`,
listed in JS backtracking priority order (alternation left first, greedy
quantifiers longest first), so the head of the list is the end position the
JS engine selects.  `fuel` bounds the recursion depth; callers supply
`mFuel`, ample for every pattern/input pair arising here. -/
def matchEnds (fl : RFlags) (full : Str) : Nat → Re → Nat → List Nat
  | 0, _, _ => []
  | Nat.succ fuel, re, i =>
    match re with
    | .eps => [i]
    | .lit p => if litAt fl.ic full i p then [i + p.length] else []
    | .cls neg atoms =>
      match full.get? i with
      | some c => if (atoms.any (fun a => ccMatch fl.ic a c)) != neg then [i + 1] else []
      | none => []
    | .anyc =>
      match full.get? i with
      | some c => if fl.da || c != '\n' then [i + 1] else []
      | none => []
    | .cat a b => (matchEnds fl full fuel a i).flatMap (fun j => matchEnds fl full fuel b j)
    | .alt a b => matchEnds fl full fuel a i ++ matchEnds fl full fuel b i
    | .star a =>
      ((matchEnds fl full fuel a i).filter (fun j => i < j)).flatMap
        (fun j => matchEnds fl full fuel (.star a) j) ++ [i]
    | .nla a => if (matchEnds fl full fuel a i).isEmpty then [i] else []
    | .bol =>
      if i == 0 ||
          (fl.ml &&
            (match i with
             | 0 => false
             | Nat.succ j => full.get? j == some '\n')) then [i] else []
    | .eol => if i == full.length || (fl.ml && full.get? i == some '\n') then [i] else []
    | .wb => if wbAt full i then [i] else []

def reSize : Re → Nat
  | .eps => 1
  | .lit _ => 1
  | .cls _ _ => 1
  | .anyc => 1
  | .cat a b => reSize a + reSize b + 1
  | .alt a b => reSize a + reSize b + 1
  | .star a => reSize a + 1
  | .nla a => reSize a + 1
  | .bol => 1
  | .eol => 1
  | .wb => 1

def mFuel (re : Re) (full : Str) : Nat := (reSize re + 2) * (full.length + 2)

/-- The end position of the JS match of `re` at position `i`, if any. -/
def matchAt (fl : RFlags) (re : Re) (full : Str) (i : Nat) : Option Nat :=
  (matchEnds fl full (mFuel re full) re i).head?

/-- Leftmost match of `re` in `full` at a position `≥ i`:
`(start, end)`. -/
def firstMatchFrom (fl : RFlags) (re : Re) (full : Str) : Nat → Nat → Option (Nat × Nat)
  | 0, _ => none
  | Nat.succ fuel, i =>
    match matchAt fl re full i with
    | some e => some (i, e)
    | none => if full.length ≤ i then none else firstMatchFrom fl re full fuel (i + 1)

/-- `regex.test(s)` for a regex without the `g` flag (stateless). -/
def reTest (fl : RFlags) (re : Re) (s : Str) : Bool :=
  (firstMatchFrom fl re s (s.length + 2) 0).isSome

def reTest0 (re : Re) (s : Str) : Bool := reTest fN re s

/-- All (start, end) pairs found by a global `s.match(re)` scan. -/
def allMatchesAux (fl : RFlags) (re : Re) (full : Str) : Nat → Nat → List (Nat × Nat)
  | 0, _ => []
  | Nat.succ fuel, pos =>
    if full.length < pos then []
    else
      match firstMatchFrom fl re full (full.length + 2) pos with
      | none => []
      | some (s, e) => (s, e) :: allMatchesAux fl re full fuel (if s < e then e else e + 1)

def allMatches (fl : RFlags) (re : Re) (full : Str) : List (Nat × Nat) :=
  allMatchesAux fl re full (full.length + 2) 0

/-- `(s.match(re) || []).length` for a regex with the `g` flag. -/
def countG (fl : RFlags) (re : Re) (s : Str) : Nat := (allMatches fl re s).length

/-- `matches.length` of a non-global `s.match(re)`: the patterns involved
have no capture groups, so a successful match yields a length-1 array. -/
def matchLen1 (fl : RFlags) (re : Re) (s : Str) : Nat :=
  if reTest fl re s then 1 else 0

/-- `regex.test(line)` for a regex with the `g` flag: consults and updates
`lastIndex` (JS looks for a match starting at or after `lastIndex`; on
success `lastIndex` becomes the match end, on failure it resets to 0). -/
def testG (fl : RFlags) (re : Re) (line : Str) (li : Nat) : Bool × Nat :=
  if line.length < li then (false, 0)
  else
    match firstMatchFrom fl re line (line.length + 2) li with
    | some (_, e) => (true, e)
    | none => (false, 0)

/- Convenience regex constructors. -/

def rLit (s : String) : Re := Re.lit s.data

def reSeq (l : List Re) : Re := l.foldr Re.cat Re.eps

def reAlts : List Re → Re
  | [] => Re.eps
  | [r] => r
  | r :: s :: t => Re.alt r (reAlts (s :: t))

def rePlus (r : Re) : Re := Re.cat r (Re.star r)

def reOpt (r : Re) : Re := Re.alt r Re.eps

/-- `\s` -/
def wsC : Re := Re.cls false [CC.space]

/-- `\s*` -/
def wsS : Re := Re.star wsC

/-- `\s+` -/
def wsP : Re := rePlus wsC

/-- `\w` -/
def wC : Re := Re.cls false [CC.word]

/-- `\w+` -/
def wP : Re := rePlus wC

/-- `.*` -/
def aS : Re := Re.star Re.anyc

/-- `[...]` over literal characters -/
def clsP (l : List Char) : Re := Re.cls false (l.map CC.lit)

/-- `[^...]` over literal characters -/
def clsN (l : List Char) : Re := Re.cls true (l.map CC.lit)

/-- `[^...\s]` : negated class of the given literals plus whitespace -/
def clsNs (l : List Char) : Re := Re.cls true (l.map CC.lit ++ [CC.space])

/-- `\bword\b` -/
def wordRe (w : Str) : Re := reSeq [Re.wb, Re.lit w, Re.wb]

/-- An ordered fold over the numbered lines that threads a state and emits
diagnostics in order — the shape of every `lines.forEach` loop of the
source that pushes onto a shared `errors` array while updating running
state. -/
def foldEmit {σ : Type} (f : σ → Nat → Str → σ × List Str) : σ → Nat → List Str → σ × List Str
  | s, _, [] => (s, [])
  | s, i, l :: ls =>
    let p := f s i l
    let q := foldEmit f p.1 (i + 1) ls
    (q.1, p.2 ++ q.2)

/- ===================== Language detection (lines 1-166) ===================== -/

/-- One entry of the `languagePatterns` catalog (`fileExtensions` is unused by
the functions under study and omitted). The `syntax` field of the source is
called `synPats` here. -/
structure LanguageProfile where
  name : Str
  keywords : List Str
  synPats : List Re
  indentationSensitive : Bool

def pythonProfile : LanguageProfile :=
  ⟨strL "Python",
   [strL "def ", strL "import ", strL "from ", strL "class ", strL "if __name__",
    strL "print(", strL "elif ", strL "lambda ", strL "yield ", strL "with ",
    strL "try:", strL "except:", strL "finally:", strL "pass", strL "self."],
   [reSeq [rLit "def", wsP, wP, wsS, rLit "("],
    reSeq [rLit "import", wsP, wP],
    reSeq [rLit "from", wsP, wP, wsP, rLit "import"],
    reSeq [rLit "class", wsP, wP],
    reSeq [rLit "if", wsP, rLit "__name__", wsS, rLit "==", wsS, clsP ['\x27', '"', '\x27'],
           rLit "__main__", clsP ['\x27', '"', '\x27']],
    reSeq [rLit "print", wsS, rLit "("],
    reSeq [rLit ":", wsS, Re.eol],
    reSeq [Re.bol, wsP]],
   true⟩

def javascriptProfile : LanguageProfile :=
  ⟨strL "JavaScript",
   [strL "function ", strL "const ", strL "let ", strL "var ", strL "console.log",
    strL "return ", strL "if (", strL "for (", strL "while (", strL "class ",
    strL "=>", strL "async ", strL "await ", strL "require("],
   [reSeq [rLit "function", wsP, wP, wsS, rLit "("],
    reSeq [rLit "const", wsP, wP],
    reSeq [rLit "let", wsP, wP],
    reSeq [rLit "var", wsP, wP],
    reSeq [rLit "console.log", wsS, rLit "("],
    reSeq [rLit "=>", wsS],
    reSeq [rLit "\x7b", wsS, Re.eol],
    reSeq [rLit "\x7d", wsS, Re.eol],
    reSeq [rLit ";", wsS, Re.eol]],
   false⟩

def javaProfile : LanguageProfile :=
  ⟨strL "Java",
   [strL "public class", strL "private ", strL "public ", strL "static ", strL "void ",
    strL "import ", strL "package ", strL "extends ", strL "implements ", strL "System.out"],
   [reSeq [rLit "public", wsP, rLit "class", wsP, wP],
    reSeq [rLit "private", wsP, wP],
    reSeq [rLit "public", wsP, wP],
    reSeq [rLit "static", wsP, wP],
    reSeq [rLit "void", wsP, wP],
    reSeq [rLit "import", wsP, rePlus (Re.cls false [CC.word, CC.lit '.'])],
    reSeq [rLit "package", wsP, rePlus (Re.cls false [CC.word, CC.lit '.'])],
    rLit "System.out"],
   false⟩

def cppProfile : LanguageProfile :=
  ⟨strL "C++",
   [strL "#include", strL "using namespace", strL "int main", strL "std::",
    strL "cout <<", strL "cin >>", strL "class ", strL "struct ", strL "void ",
    strL "int ", strL "char ", strL "double "],
   [reSeq [rLit "#include", wsS, clsP ['<', '"']],
    reSeq [rLit "using", wsP, rLit "namespace", wsP, wP],
    reSeq [rLit "int", wsP, rLit "main", wsS, rLit "("],
    reSeq [rLit "std::", wP],
    reSeq [rLit "cout", wsS, rLit "<<"],
    reSeq [rLit "cin", wsS, rLit ">>"],
    reSeq [rLit "class", wsP, wP],
    reSeq [rLit "struct", wsP, wP]],
   false⟩

def languagePatterns : List LanguageProfile :=
  [pythonProfile, javascriptProfile, javaProfile, cppProfile]

/-- `/^\s{4,}/` (written as `\s\s\s\s\s*`). -/
def indent4Re : Re := reSeq [Re.bol, wsC, wsC, wsC, wsC, wsS]

/-- `/^\t/` -/
def tabRe : Re := reSeq [Re.bol, Re.lit ['\t']]

/-- The Python indentation bonus of `detectLanguage` (lines 119-138):
count the lines matching `/^\s{4,}/` or `/^\t/`; add 5 when
`lines.length > 0 && indentedLines > lines.length * 0.2`.  The IEEE-double
comparison `x > n * 0.2` coincides with `5 * x > n` for every line count
arising from a JS string, so it is embedded as the exact rational test. -/
def pythonIndentBonus (code : Str) : Nat :=
  let lines := splitLines code
  let indented := (lines.filter (fun line => reTest0 indent4Re line || reTest0 tabRe line)).length
  if 0 < lines.length ∧ lines.length < 5 * indented then 5 else 0

/-- The per-profile score of `detectLanguage` (lines 90-142): keyword
occurrences are counted by a global match on the escaped keyword literal
and weighted 2; each syntax regex is non-global, so its `match` array has
length 1 when it matches at all, weighted 3; the Python profile adds
`pythonIndentBonus`. -/
def scoreProfile (code : Str) (p : LanguageProfile) : Nat :=
  let kw := p.keywords.foldl (fun acc k => acc + countOccur k code * 2) 0
  let syn := p.synPats.foldl (fun acc r => acc + matchLen1 fN r code * 3) 0
  let bonus :=
    if p.name = strL "Python" ∧ p.indentationSensitive = true then pythonIndentBonus code else 0
  kw + syn + bonus

/-- `detectLanguage` (lines 65-166) over character lists. -/
def detectLanguageC (code : Str) : Option Str :=
  if code = [] then none
  else if strTrim code = [] then none
  else
    let scores := languagePatterns.map (fun p => (p.name, scoreProfile code p))
    let maxScore := (scores.map Prod.snd).foldl Nat.max 0
    if maxScore = 0 then none
    else (scores.find? (fun q => q.2 = maxScore)).map Prod.fst

/-- `detectLanguage` at the `string` API. -/
def detectLanguage (code : String) : Option String :=
  (detectLanguageC code.data).map String.mk

/- ===================== isPlainText (lines 1202-1243) ===================== -/

/-- The keyword alternation of the second code indicator. -/
def indicatorKeywords : List Str :=
  [strL "var", strL "let", strL "const", strL "int", strL "string", strL "float",
   strL "double", strL "bool", strL "boolean", strL "char", strL "void", strL "class",
   strL "def", strL "function", strL "public", strL "private", strL "protected",
   strL "static", strL "final", strL "abstract", strL "interface", strL "enum",
   strL "struct", strL "union", strL "namespace", strL "using", strL "import",
   strL "include", strL "require", strL "from", strL "as", strL "in", strL "is",
   strL "not", strL "and", strL "or", strL "if", strL "else", strL "elif",
   strL "for", strL "while", strL "do", strL "switch", strL "case", strL "default",
   strL "break", strL "continue", strL "return", strL "yield", strL "try",
   strL "catch", strL "except", strL "finally", strL "throw", strL "throws",
   strL "new", strL "delete", strL "this", strL "super", strL "self", strL "null",
   strL "undefined", strL "true", strL "false", strL "None", strL "True", strL "False"]

/-- The 13 `codeIndicators` of `isPlainText`, with their flags. -/
def codeIndicators : List (Re × RFlags) :=
  [(rePlus (clsP ['\x7b', '\x7d', '(', ')', ';', '=', '<', '>', '!', '&', '|']), fN),
   (reSeq [Re.wb, reAlts (indicatorKeywords.map Re.lit), Re.wb], fN),
   (reSeq [wP, wsS, rLit "(", aS, rLit ")"], fN),
   (reSeq [wP, rLit "[", aS, rLit "]"], fN),
   (reSeq [wP, rLit ".", wP], fN),
   (reAlts [rLit "//", rLit "/*", rLit "*/", rLit "#", rLit "<!--"], fN),
   (reAlts [rLit "#include", rLit "import", rLit "require", rLit "using",
            reSeq [rLit "from", aS, rLit "import"]], fN),
   (reSeq [clsP ['"', '\x27', '\x60'], Re.star (clsN ['"', '\x27', '\x60']),
           clsP ['"', '\x27', '\x60']], fN),
   (reAlts [rLit "++", rLit "--", rLit "&&", rLit "||", rLit "==", rLit "!=",
            rLit "<=", rLit ">=", rLit "=>", rLit "->", rLit "*=", rLit "+=",
            rLit "-=", rLit "/="], fN),
   (reSeq [Re.bol, wsC, wsC, wsC, wsC, wsS], fM),
   (reSeq [rLit ";", wsS, Re.eol], fM),
   (reSeq [rLit "\x7b", wsS, wP], fN),
   (Re.alt (reSeq [rLit "[", aS, rLit "]"]) (reSeq [rLit "\x7b", aS, rLit "\x7d"]), fN)]

/-- The number of distinct code-indicator patterns that match (each
contributes at most 1 however many times it matches). -/
def indicatorCount (text : Str) : Nat :=
  (codeIndicators.filter (fun pr => reTest pr.2 pr.1 text)).length

/-- `isPlainText` (lines 1202-1243). -/
def isPlainText (text : Str) : Bool :=
  if text = [] then true
  else decide (indicatorCount text < 2) && decide (text.length < 100)

/- ===================== detectGenericErrors (lines 1246-1295) ===================== -/

/-- `detectGenericErrors`: three global single-character counts compared
pairwise. The `lines` parameter of the source is unused there. -/
def detectGenericErrors (code : Str) (_lines : List Str) : List Str :=
  let openParen := countChar '(' code
  let closeParen := countChar ')' code
  let e1 :=
    if openParen ≠ closeParen then
      [strL "Unmatched parentheses: " ++ decRepr openParen ++ strL " opening, " ++
        decRepr closeParen ++ strL " closing"]
    else []
  let openB := countChar '\x7b' code
  let closeB := countChar '\x7d' code
  let e2 :=
    if openB ≠ closeB then
      [strL "Unmatched curly brackets: " ++ decRepr openB ++ strL " opening, " ++
        decRepr closeB ++ strL " closing"]
    else []
  let openS := countChar '[' code
  let closeS := countChar ']' code
  let e3 :=
    if openS ≠ closeS then
      [strL "Unmatched square brackets: " ++ decRepr openS ++ strL " opening, " ++
        decRepr closeS ++ strL " closing"]
    else []
  e1 ++ e2 ++ e3

/- ============ detectUniversalSyntaxErrors (lines 286-399) ============ -/

/-- `/\/\/\s*(TODO|FIXME)\s*$/i` -/
def todoSlashRe : Re :=
  reSeq [rLit "//", wsS, Re.alt (rLit "TODO") (rLit "FIXME"), wsS, Re.eol]

/-- `/#\s*(TODO|FIXME)\s*$/i` -/
def todoHashRe : Re :=
  reSeq [rLit "#", wsS, Re.alt (rLit "TODO") (rLit "FIXME"), wsS, Re.eol]

/-- `/=\s*["'](?:localhost|127\.0\.0\.1|password|secret|key)["']/i` -/
def hardcodedRe : Re :=
  reSeq [rLit "=", wsS, clsP ['"', '\x27'],
         reAlts [rLit "localhost", rLit "127.0.0.1", rLit "password", rLit "secret", rLit "key"],
         clsP ['"', '\x27']]

/-- The per-line checks of `detectUniversalSyntaxErrors` (lines 320-363). -/
def univLineErrors (code : Str) (i : Nat) (line : Str) : List Str :=
  let trimmed := strTrim line
  if trimmed = [] || strStarts trimmed (strL "//") || strStarts trimmed (strL "#") ||
      strStarts trimmed (strL "/*") then []
  else
    let n := i + 1
    (if trimmed = [';'] then [lineMsg n (strL "Empty statement - unnecessary semicolon")] else []) ++
    (if line ≠ strTrimEnd line then [lineMsg n (strL "Trailing whitespace detected")] else []) ++
    (if 120 < line.length then
       [lineMsg n (strL "Line too long (" ++ decRepr line.length ++
         strL " chars) - consider breaking it down")]
     else []) ++
    (if reTest0 tabRe line && strIncludes code (strL "    ") then
       [lineMsg n (strL "Mixed indentation - tabs and spaces")]
     else []) ++
    (if reTest0 (reSeq [Re.bol, rLit "    "]) line && strIncludes code ['\t'] then
       [lineMsg n (strL "Mixed indentation - spaces and tabs")]
     else []) ++
    (if reTest fI todoSlashRe line || reTest fI todoHashRe line then
       [lineMsg n (strL "TODO/FIXME comment without description")]
     else []) ++
    (if reTest fI hardcodedRe line then
       [lineMsg n (strL "Hardcoded sensitive value - consider using environment variables")]
     else [])

/-- The `universalTypos` table (lines 366-381): misspelling/correction. -/
def universalTypos : List (Str × Str) :=
  [(strL "functoin", strL "function"), (strL "retrun", strL "return"),
   (strL "lenght", strL "length"), (strL "widht", strL "width"),
   (strL "heigth", strL "height"), (strL "calss", strL "class"),
   (strL "pubilc", strL "public"), (strL "privae", strL "private"),
   (strL "imort", strL "import"), (strL "includ", strL "include"),
   (strL "stirng", strL "string"), (strL "booelan", strL "boolean"),
   (strL "consloe", strL "console"), (strL "document", strL "document")]

/-- Stateless index-threading flat map over the numbered lines. -/
def flatMapIdx (f : Nat → Str → List Str) : Nat → List Str → List Str
  | _, [] => []
  | i, l :: ls => f i l ++ flatMapIdx f (i + 1) ls

/-- `detectUniversalSyntaxErrors` (lines 286-399): bracket/quote balance on
the whole text, per-line checks, then the universal typo scan.  Each typo
pattern is `\bword\b` (global), so a successful `code.match` has the
misspelled word itself as `matches[0]`. -/
def detectUniversalSyntaxErrors (code : Str) (lines : List Str) : List Str :=
  let bq := fun (o c : Char) =>
    let oc := countChar o code
    let cc := countChar c code
    if oc ≠ cc then
      [strL "Unmatched " ++ [o, c] ++ strL ": " ++ decRepr oc ++ strL " opening, " ++
        decRepr cc ++ strL " closing"]
    else []
  let qe := fun (q : Char) =>
    let m := countChar q code
    if m ≠ 0 ∧ m % 2 ≠ 0 then
      [strL "Unmatched " ++ [q] ++ strL " quotes - found " ++ decRepr m ++ strL " occurrences"]
    else []
  bq '\x7b' '\x7d' ++ bq '[' ']' ++ bq '(' ')' ++
  qe '"' ++ qe '\x27' ++ qe '\x60' ++
  flatMapIdx (univLineErrors code) 0 lines ++
  universalTypos.flatMap (fun pr =>
    if reTest0 (wordRe pr.1) code then
      [strL "Typo detected: \x27" ++ pr.1 ++ strL "\x27 should be \x27" ++ pr.2 ++ strL "\x27"]
    else [])

/- ======== detectComprehensivePythonErrors (lines 402-567) ======== -/

/-- `pythonErrorPatterns` (lines 413-428). -/
def pythonErrorPatterns : List (Re × Str) :=
  [(reSeq [Re.wb,
           reAlts [rLit "if", rLit "elif", rLit "else", rLit "for", rLit "while",
                   rLit "def", rLit "class", rLit "try", rLit "except", rLit "finally",
                   rLit "with"],
           wsP, Re.star (clsN [':']), clsN [':'], Re.eol],
    strL "Missing colon (:) after control statement"),
   (reSeq [Re.wb, rLit "print", wsP, clsN ['(']],
    strL "Use print() with parentheses (Python 3 syntax)"),
   (reSeq [rLit "if", wsP, wP, wsS, rLit "=", wsS, wP],
    strL "Use == for comparison, not = for assignment"),
   (reSeq [rLit "def", wsP, wP, wsS, rLit "(", wsS, rLit ")", wsS, rLit ":"],
    strL "Instance method missing self parameter"),
   (reSeq [Re.bol, wsS,
           reAlts [rLit "if", rLit "for", rLit "while", rLit "def", rLit "class",
                   rLit "try", rLit "except", rLit "finally", rLit "with"],
           aS, rLit ":", wsS, Re.eol],
    strL "Expected indented block after colon"),
   (reAlts [rLit "json.", rLit "os.", rLit "sys.", rLit "random.", rLit "math."],
    strL "Module used but not imported"),
   (reSeq [rLit "print", wsS, rLit "(", wsS, wP, wsS, rLit ")"],
    strL "Variable may be undefined")]

/-- `pythonTypos` (lines 431-458): global patterns tested with
`pattern.test(line)`, so each carries a `lastIndex` across lines. -/
def pythonTypos : List (Re × Str) :=
  [(wordRe (strL "pirnt"), strL "print"), (wordRe (strL "pritn"), strL "print"),
   (wordRe (strL "prtin"), strL "print"), (wordRe (strL "prnt"), strL "print"),
   (wordRe (strL "imort"), strL "import"), (wordRe (strL "improt"), strL "import"),
   (wordRe (strL "ipmort"), strL "import"), (wordRe (strL "fom"), strL "from"),
   (reSeq [Re.wb, rLit "from", wsP, wP, wsP, rLit "imort", Re.wb], strL "import"),
   (wordRe (strL "rnage"), strL "range"), (wordRe (strL "rnge"), strL "range"),
   (wordRe (strL "raneg"), strL "range"), (wordRe (strL "rang"), strL "range"),
   (wordRe (strL "input"), strL "input"), (wordRe (strL "inpt"), strL "input"),
   (wordRe (strL "str"), strL "str"), (wordRe (strL "int"), strL "int"),
   (wordRe (strL "float"), strL "float"), (wordRe (strL "list"), strL "list"),
   (wordRe (strL "dict"), strL "dict"), (wordRe (strL "tuple"), strL "tuple"),
   (wordRe (strL "set"), strL "set"), (wordRe (strL "len"), strL "len"),
   (wordRe (strL "appned"), strL "append"), (wordRe (strL "apend"), strL "append"),
   (wordRe (strL "append"), strL "append")]

/-- The Python typo scan for one line (lines 467-476): each global pattern
is `test`ed from its threaded `lastIndex`; a hit is reported
unconditionally (there is no same-line correct-spelling guard here). -/
def pyTypoScan : List (Re × Str) → List Nat → Nat → Str → List Nat × List Str
  | [], _, _, _ => ([], [])
  | pr :: t, lis, n, line =>
    let r := testG fN pr.1 line (lis.headD 0)
    let rest := pyTypoScan t lis.tail n line
    (r.2 :: rest.1,
     (if r.1 then [lineMsg n (strL "Typo detected - use \x27" ++ pr.2 ++ strL "\x27")] else []) ++
       rest.2)

/-- The mutable locals of `detectComprehensivePythonErrors`, plus the
`lastIndex` of each global typo pattern. -/
structure PyState where
  typoLI : List Nat
  indentLevel : Nat
  expectedIndent : Bool
  inFunction : Bool
  inClass : Bool
  hasReturn : Bool

/-- One iteration of the Python `lines.forEach` (lines 460-539). -/
def pyLineStep (st : PyState) (i : Nat) (line : Str) : PyState × List Str :=
  let trimmed := strTrim line
  if trimmed = [] || strStarts trimmed (strL "#") then (st, [])
  else
    let n := i + 1
    let tp := pyTypoScan pythonTypos st.typoLI n line
    let patMsgs := pythonErrorPatterns.flatMap (fun pr =>
      if reTest0 pr.1 line then [lineMsg n pr.2] else [])
    let currentIndent := line.length - (strTrimStart line).length
    let indentErr :=
      if st.expectedIndent = true ∧ currentIndent ≤ st.indentLevel ∧ trimmed ≠ [] then
        [lineMsg n (strL "Expected indentation after previous statement")]
      else []
    let st1 : PyState :=
      if strEnds line (strL ":") then
        ⟨tp.1, currentIndent, true,
         (if strIncludes line (strL "def ") then true else st.inFunction),
         (if strIncludes line (strL "class ") then true else st.inClass),
         (if strIncludes line (strL "def ") then false else st.hasReturn)⟩
      else if st.indentLevel < currentIndent then
        ⟨tp.1, st.indentLevel, false, st.inFunction, st.inClass, st.hasReturn⟩
      else
        ⟨tp.1, st.indentLevel, st.expectedIndent, st.inFunction, st.inClass, st.hasReturn⟩
    let st2 : PyState :=
      if strIncludes line (strL "return") then
        ⟨st1.typoLI, st1.indentLevel, st1.expectedIndent, st1.inFunction, st1.inClass, true⟩
      else st1
    let assignErr :=
      if reTest0 (reSeq [Re.bol, wsS, wP, wsS, rLit "="]) line then
        (if reTest0 (reSeq [rLit "=", wsS, Re.eol]) line then
           [lineMsg n (strL "Incomplete assignment - missing value")]
         else [])
      else []
    let importErr :=
      if strIncludes line (strL "import") then
        (if reTest0 (reSeq [rLit "import", wsS, Re.eol]) line then
           [lineMsg n (strL "Incomplete import statement")]
         else [])
      else []
    (st2, tp.2 ++ patMsgs ++ indentErr ++ assignErr ++ importErr)

/-- `moduleChecks` of the Python engine (lines 542-554). -/
def pythonModuleChecks : List (Str × Str) :=
  [(strL "json.", strL "import json"), (strL "os.", strL "import os"),
   (strL "sys.", strL "import sys"), (strL "random.", strL "import random"),
   (strL "math.", strL "import math"), (strL "datetime.", strL "import datetime"),
   (strL "re.", strL "import re"), (strL "urllib.", strL "import urllib"),
   (strL "requests.", strL "import requests"), (strL "numpy.", strL "import numpy"),
   (strL "pandas.", strL "import pandas")]

/-- `detectComprehensivePythonErrors` (lines 402-567). -/
def detectComprehensivePythonErrors (code : Str) (lines : List Str) : List Str :=
  let init : PyState := ⟨List.replicate pythonTypos.length 0, 0, false, false, false, false⟩
  let r := foldEmit pyLineStep init 0 lines
  r.2 ++
    pythonModuleChecks.flatMap (fun pr =>
      if strIncludes code pr.1 ∧ ¬strIncludes code pr.2 ∧
          ¬strIncludes code (strL "from " ++ pr.1.dropLast) then
        [strL "Missing import: " ++ pr.1.dropLast ++ strL " module used but not imported"]
      else [])

/- ======== detectComprehensiveJavaScriptErrors (lines 570-701) ======== -/

/-- `jsErrorPatterns` (lines 579-597): regex, flags, message. -/
def jsErrorPatterns : List (Re × RFlags × Str) :=
  [(reSeq [Re.bol, wsS, reAlts [rLit "var", rLit "let", rLit "const", rLit "return"],
           wsP, aS, clsNs [';', '\x7b', '\x7d'], Re.eol], fN,
    strL "Missing semicolon"),
   (reSeq [Re.bol, wsS, wP, wsS, rLit "=", wsS, rePlus (clsNs [';', '\x7b', '\x7d']), Re.eol], fN,
    strL "Missing semicolon after assignment"),
   (reSeq [Re.bol, wsS, wP, rLit ".", wP, rLit "(", Re.star (clsN [')']), rLit ")", wsS, Re.eol],
    fN, strL "Missing semicolon after function call"),
   (reSeq [rLit "console.log", wsP, clsN ['(']], fN,
    strL "Missing parentheses in console.log"),
   (rLit "Console.log", fI, strL "Incorrect capitalization - use console.log"),
   (reSeq [rLit "const", wsP, wP, wsS, Re.nla (rLit "=")], fN,
    strL "const declaration must be initialized"),
   (reSeq [rLit "let", wsP, wP, wsS, rLit "=", wsS, Re.eol], fN,
    strL "Incomplete let assignment"),
   (reSeq [rLit "function", wsP, wP, wsS, clsN ['(']], fN,
    strL "Missing parentheses in function declaration"),
   (reSeq [rLit "function", wsP, wP, rLit "(", Re.star (clsN [')']), rLit ")", wsS, clsN ['\x7b']],
    fN, strL "Missing opening brace in function"),
   (reSeq [rLit "=", wsS, Re.cls false [CC.rng 'A' 'Z'], wP, wsS, rLit "("], fN,
    strL "Missing new keyword for constructor"),
   (reSeq [rLit "if", wsS, rLit "(", Re.star (clsN [')']), rLit "=", wsS, clsN ['=']], fN,
    strL "Assignment in if condition - use == or ===")]

/-- `jsTypos` (lines 600-622): global misspelling patterns and the word to
check the spelling of. -/
def jsTypos : List (Re × Str) :=
  [(wordRe (strL "consoel"), strL "console"), (wordRe (strL "consloe"), strL "console"),
   (wordRe (strL "conosle"), strL "console"), (wordRe (strL "cnosole"), strL "console"),
   (wordRe (strL "functoin"), strL "function"), (wordRe (strL "funciton"), strL "function"),
   (wordRe (strL "fucntion"), strL "function"), (wordRe (strL "funtcion"), strL "function"),
   (wordRe (strL "retrun"), strL "return"), (wordRe (strL "retrn"), strL "return"),
   (wordRe (strL "retunr"), strL "return"), (wordRe (strL "vra"), strL "var"),
   (wordRe (strL "var"), strL "var"), (wordRe (strL "if"), strL "if"),
   (wordRe (strL "else"), strL "else"), (wordRe (strL "for"), strL "for"),
   (wordRe (strL "while"), strL "while"), (wordRe (strL "true"), strL "true"),
   (wordRe (strL "false"), strL "false"), (wordRe (strL "null"), strL "null"),
   (wordRe (strL "undefined"), strL "undefined")]

/-- The message tail of the JS typo diagnostic for correction `c`. -/
def jsTypoTail (c : Str) : Str :=
  strL "Typo detected - check spelling of \x27" ++ c ++ strL "\x27"

/-- The JS typo scan for one line (lines 632-640): global `test` from the
threaded `lastIndex`, guarded by the absence of the correctly spelled word
(`\bcorrect\b`, fresh and stateless) on the same line. -/
def jsTypoScan : List (Re × Str) → List Nat → Nat → Str → List Nat × List Str
  | [], _, _, _ => ([], [])
  | pr :: t, lis, n, line =>
    let r := testG fN pr.1 line (lis.headD 0)
    let rest := jsTypoScan t lis.tail n line
    (r.2 :: rest.1,
     (if r.1 && !(reTest0 (wordRe pr.2) line) then [lineMsg n (jsTypoTail pr.2)] else []) ++
       rest.2)

/-- The message tail of the discourage-`var` diagnostic (line 655). -/
def jsVarTail : Str :=
  strL "Consider using \x27let\x27 or \x27const\x27 instead of \x27var\x27"

/-- One iteration of the JS `lines.forEach` (lines 624-671); state is the
typo `lastIndex`es and the running `bracketCount`/`parenCount`. -/
def jsLineStep (hasStrict : Bool) (st : List Nat × Int × Int) (i : Nat) (line : Str) :
    (List Nat × Int × Int) × List Str :=
  let trimmed := strTrim line
  if trimmed = [] || strStarts trimmed (strL "//") || strStarts trimmed (strL "/*") then (st, [])
  else
    let n := i + 1
    let tp := jsTypoScan jsTypos st.1 n line
    let patMsgs := jsErrorPatterns.flatMap (fun e =>
      if reTest e.2.1 e.1 line && !(strIncludes line (strL "//")) then [lineMsg n e.2.2] else [])
    let varMsgs :=
      if strIncludes line (strL "var ") && !hasStrict then [lineMsg n jsVarTail] else []
    ((tp.1,
      st.2.1 + (countChar '\x7b' line : Int) - (countChar '\x7d' line : Int),
      st.2.2 + (countChar '(' line : Int) - (countChar ')' line : Int)),
     tp.2 ++ patMsgs ++ varMsgs)

/-- `moduleChecks` of the JS engine (lines 682-688): usage token, required
require-string, display name (`usage.replace('.', '')`). -/
def jsModuleChecks : List (Str × Str × Str) :=
  [(strL "fs.", strL "require(\x27fs\x27)", strL "fs"),
   (strL "path.", strL "require(\x27path\x27)", strL "path"),
   (strL "http.", strL "require(\x27http\x27)", strL "http"),
   (strL "express", strL "require(\x27express\x27)", strL "express"),
   (strL "axios", strL "require(\x27axios\x27)", strL "axios")]

/-- `detectComprehensiveJavaScriptErrors` (lines 570-701). -/
def detectComprehensiveJavaScriptErrors (code : Str) (lines : List Str) : List Str :=
  let hasStrict :=
    strIncludes code (strL "\"use strict\"") || strIncludes code (strL "\x27use strict\x27")
  let r := foldEmit (jsLineStep hasStrict) (List.replicate jsTypos.length 0, (0 : Int), (0 : Int))
    0 lines
  let bErr :=
    if r.1.2.1 ≠ 0 then
      [strL "Unmatched curly brackets: " ++
        (if 0 < r.1.2.1 then strL "missing closing" else strL "extra closing") ++ strL " braces"]
    else []
  let pErr :=
    if r.1.2.2 ≠ 0 then
      [strL "Unmatched parentheses: " ++
        (if 0 < r.1.2.2 then strL "missing closing" else strL "extra closing") ++
        strL " parentheses"]
    else []
  r.2 ++ bErr ++ pErr ++
    jsModuleChecks.flatMap (fun e =>
      if strIncludes code e.1 ∧ ¬strIncludes code e.2.1 ∧ ¬strIncludes code (strL "import") then
        [strL "Missing module import: " ++ e.2.2 ++ strL " used but not imported"]
      else [])

/- ======== detectComprehensiveJavaErrors (lines 704-847) ======== -/

/-- `javaErrorPatterns` (lines 714-730): regex, flags, message, optional
exclude pattern. -/
def javaErrorPatterns : List (Re × RFlags × Str × Option Re) :=
  [(reSeq [rLit "System.out.printl", Re.nla (rLit "n"), Re.wb], fN,
    strL "Typo: use println instead of printl", none),
   (reSeq [rLit "System.out.prinln", Re.wb], fN,
    strL "Typo: use println instead of prinln", none),
   (rLit "system.out", fI,
    strL "Incorrect capitalization - use System.out (capital S)", some (rLit "System.out")),
   (reSeq [rLit "System.out.print", wsP, clsN ['(']], fN,
    strL "Missing parentheses in System.out.print", none),
   (reSeq [Re.bol, wsS,
           reAlts [rLit "int", rLit "String", rLit "boolean", rLit "double", rLit "float",
                   rLit "char"],
           wsP, wP, wsS, rLit "=", wsS, rePlus (clsN [';']), clsNs [';', '\x7b', '\x7d'],
           Re.eol], fN,
    strL "Missing semicolon after declaration", none),
   (reSeq [Re.bol, wsS, wP, rLit ".", wP, rLit "(", Re.star (clsN [')']), rLit ")", wsS,
           clsN [';'], Re.eol], fN,
    strL "Missing semicolon after method call", some (reSeq [rLit "\x7b", wsS, Re.eol])),
   (reSeq [Re.bol, wsS, rLit "return", wsP, rePlus (clsN [';']), clsN [';'], Re.eol], fN,
    strL "Missing semicolon after return", none),
   (reSeq [rLit "Scanner", wsP, wP, wsS, rLit "=", wsS, rLit "Scanner", wsS, rLit "("], fN,
    strL "Missing new keyword for Scanner", none),
   (reSeq [wP, wsS, rLit "==", wsS, clsP ['"', '\x27']], fN,
    strL "Use .equals() for string comparison, not ==", none),
   (reSeq [Re.bol, wsS, reAlts [rLit "void", rLit "int", rLit "String", rLit "boolean"],
           wsP, rLit "main", wsS, rLit "("], fN,
    strL "Missing access modifier for main method - should be public static", none)]

/-- `javaTypos` (lines 733-749): misspelled word and correction (the
duplicated `pubilc` entry of the source is kept). -/
def javaTypos : List (Str × Str) :=
  [(strL "pubilc", strL "public"), (strL "pubilc", strL "public"),
   (strL "privae", strL "private"), (strL "proteted", strL "protected"),
   (strL "staic", strL "static"), (strL "vodi", strL "void"),
   (strL "Strign", strL "String"), (strL "booelan", strL "boolean"),
   (strL "retrun", strL "return"), (strL "imort", strL "import"),
   (strL "packge", strL "package"), (strL "nextint", strL "nextInt"),
   (strL "nextstring", strL "next or nextLine"), (strL "Scaner", strL "Scanner"),
   (strL "system", strL "System")]

/-- The message tail of a Java typo diagnostic. -/
def javaTypoTail (w c : Str) : Str :=
  strL "Typo detected - \x27" ++ w ++ strL "\x27 should be \x27" ++ c ++ strL "\x27"

/-- The Java typo scan for one line (lines 766-780): `line.match` on the
global word pattern (stateless; `wrongMatches[0]` is the word itself),
guarded by the absence of `\bcorrect\b` on the line. -/
def javaTypoScan (n : Nat) (line : Str) : List Str :=
  javaTypos.flatMap (fun pr =>
    if reTest0 (wordRe pr.1) line && !(reTest0 (wordRe pr.2) line) then
      [lineMsg n (javaTypoTail pr.1 pr.2)]
    else [])

/-- The mutable locals of `detectComprehensiveJavaErrors`. -/
structure JavaState where
  hasMain : Bool
  hasClass : Bool
  bracketBalance : Int
  parenBalance : Int

/-- One iteration of the Java `lines.forEach` (lines 751-810). -/
def javaLineStep (st : JavaState) (i : Nat) (line : Str) : JavaState × List Str :=
  let trimmed := strTrim line
  if trimmed = [] || strStarts trimmed (strL "//") || strStarts trimmed (strL "/*") then (st, [])
  else
    let n := i + 1
    let hasMain' :=
      if strIncludes line (strL "public static void main") ||
          strIncludes line (strL "static void main") then true
      else st.hasMain
    let hasClass' :=
      if reTest0 (reSeq [Re.bol, wsS, reOpt (reSeq [rLit "public", wsP]), rLit "class", wsP, wP])
          line then true
      else st.hasClass
    let typoMsgs := javaTypoScan n line
    let patMsgs := javaErrorPatterns.flatMap (fun e =>
      if reTest e.2.1 e.1 line then
        (match e.2.2.2 with
         | some ex => if reTest0 ex line then [] else [lineMsg n e.2.2.1]
         | none => [lineMsg n e.2.2.1])
      else [])
    (⟨hasMain', hasClass',
      st.bracketBalance + (countChar '\x7b' line : Int) - (countChar '\x7d' line : Int),
      st.parenBalance + (countChar '(' line : Int) - (countChar ')' line : Int)⟩,
     typoMsgs ++ patMsgs)

/-- `importChecks` of the Java engine (lines 829-834). -/
def javaImportChecks : List (Str × Str) :=
  [(strL "Scanner", strL "import java.util.Scanner"),
   (strL "ArrayList", strL "import java.util.ArrayList"),
   (strL "HashMap", strL "import java.util.HashMap"),
   (strL "Random", strL "import java.util.Random")]

/-- `detectComprehensiveJavaErrors` (lines 704-847). -/
def detectComprehensiveJavaErrors (code : Str) (lines : List Str) : List Str :=
  let r := foldEmit javaLineStep ⟨false, false, 0, 0⟩ 0 lines
  let st := r.1
  let structural :=
    (if st.hasClass = false ∧ 50 < code.length then
       [strL "Missing public class declaration - Java programs must have a public class"]
     else []) ++
    (if st.hasClass = true ∧ st.hasMain = false ∧ 100 < code.length then
       [strL "Missing main method - add: public static void main(String[] args)"]
     else [])
  let bErr :=
    if st.bracketBalance ≠ 0 then
      [strL "Unmatched curly brackets: " ++
        (if 0 < st.bracketBalance then strL "missing " ++ decRepr st.bracketBalance.toNat
         else strL "extra " ++ decRepr st.bracketBalance.natAbs) ++
        strL " closing brace(s)"]
    else []
  let pErr :=
    if st.parenBalance ≠ 0 then
      [strL "Unmatched parentheses: " ++
        (if 0 < st.parenBalance then strL "missing " ++ decRepr st.parenBalance.toNat
         else strL "extra " ++ decRepr st.parenBalance.natAbs) ++
        strL " closing parenthesis"]
    else []
  r.2 ++ structural ++ bErr ++ pErr ++
    javaImportChecks.flatMap (fun pr =>
      if strIncludes code pr.1 ∧ ¬strIncludes code pr.2 then
        [strL "Missing import: " ++ pr.1 ++ strL " class used but " ++ pr.2 ++ strL " not found"]
      else [])

/- ======== detectComprehensiveCppErrors (lines 850-972) ======== -/

/-- `cppErrorPatterns` (lines 860-879). -/
def cppErrorPatterns : List (Re × Str) :=
  [(reSeq [rLit "cout", wsP, clsN ['<']], strL "cout requires << operator"),
   (reSeq [rLit "cin", wsP, clsN ['>']], strL "cin requires >> operator"),
   (reSeq [rLit "cout", wsS, clsN ['<']], strL "Missing << operator with cout"),
   (reSeq [rLit "cin", wsS, clsN ['>']], strL "Missing >> operator with cin"),
   (reSeq [rLit "#includ", Re.wb], strL "Typo: use #include"),
   (reSeq [rLit "include", wsS, rLit "<"], strL "Missing # before include"),
   (reSeq [rLit "using", wsP, rLit "namspace", Re.wb], strL "Typo: use namespace"),
   (reSeq [rLit "using", wsP, rLit "namespace", wsP, rLit "std", Re.wb, Re.nla (rLit ";")],
    strL "Missing semicolon after using namespace std"),
   (reSeq [rLit "int", wsP, rLit "main", wsS, rLit "(", wsS, rLit ")", wsS,
           Re.nla (rLit "\x7b")],
    strL "Missing opening brace after main()"),
   (reSeq [Re.bol, wsS,
           reAlts [rLit "int", rLit "char", rLit "double", rLit "float", rLit "string",
                   rLit "bool"],
           wsP, wP, aS, clsNs [';', '\x7b', '\x7d'], Re.eol],
    strL "Missing semicolon"),
   (reSeq [Re.bol, wsS, rLit "cout", wsS, rLit "<<", aS, clsN [';'], Re.eol],
    strL "Missing semicolon after cout"),
   (reSeq [Re.bol, wsS, rLit "cin", wsS, rLit ">>", aS, clsN [';'], Re.eol],
    strL "Missing semicolon after cin"),
   (reSeq [Re.bol, wsS, rLit "return", wsP, rePlus (clsN [';']), Re.eol],
    strL "Missing semicolon after return")]

/-- `cppTypos` (lines 882-899): word and the spelling to check. -/
def cppTypos : List (Str × Str) :=
  [(strL "cout", strL "cout"), (strL "cin", strL "cin"), (strL "endl", strL "endl"),
   (strL "include", strL "include"), (strL "using", strL "using"),
   (strL "namespace", strL "namespace"), (strL "std", strL "std"),
   (strL "int", strL "int"), (strL "char", strL "char"), (strL "double", strL "double"),
   (strL "float", strL "float"), (strL "string", strL "string"),
   (strL "bool", strL "bool"), (strL "void", strL "void"),
   (strL "retrun", strL "return"), (strL "main", strL "main")]

/-- The C++ typo scan for one line (lines 913-923): stateless `line.match`
on the global word pattern, guarded by `\bcorrect\b` absence. -/
def cppTypoScan (n : Nat) (line : Str) : List Str :=
  cppTypos.flatMap (fun pr =>
    if reTest0 (wordRe pr.1) line && !(reTest0 (wordRe pr.2) line) then
      [lineMsg n (strL "Check spelling of \x27" ++ pr.2 ++ strL "\x27")]
    else [])

/-- The mutable locals of `detectComprehensiveCppErrors`. -/
structure CppState where
  hasMain : Bool
  hasInclude : Bool
  hasUsingNamespace : Bool
  bracketBalance : Int

/-- One iteration of the C++ `lines.forEach` (lines 901-954).  The
`std::` check reads `hasUsingNamespace` after this line's update. -/
def cppLineStep (code : Str) (st : CppState) (i : Nat) (line : Str) : CppState × List Str :=
  let trimmed := strTrim line
  if trimmed = [] || strStarts trimmed (strL "//") || strStarts trimmed (strL "/*") then (st, [])
  else
    let n := i + 1
    let hasMain' :=
      if strIncludes line (strL "int main") || strIncludes line (strL "void main") then true
      else st.hasMain
    let hasInclude' := if strIncludes line (strL "#include") then true else st.hasInclude
    let hasUN' := if strIncludes line (strL "using namespace") then true else st.hasUsingNamespace
    let typoMsgs := cppTypoScan n line
    let patMsgs := cppErrorPatterns.flatMap (fun pr =>
      if reTest0 pr.1 line then [lineMsg n pr.2] else [])
    let stdMsgs :=
      if hasUN' = false ∧ ¬strIncludes code (strL "using namespace std") then
        (if (strIncludes line (strL "cout") || strIncludes line (strL "cin") ||
              strIncludes line (strL "endl")) && !(strIncludes line (strL "std::")) then
           [lineMsg n (strL "Missing std:: prefix (or add using namespace std;)")]
         else [])
      else []
    (⟨hasMain', hasInclude', hasUN',
      st.bracketBalance + (countChar '\x7b' line : Int) - (countChar '\x7d' line : Int)⟩,
     typoMsgs ++ patMsgs ++ stdMsgs)

/-- `detectComprehensiveCppErrors` (lines 850-972). -/
def detectComprehensiveCppErrors (code : Str) (lines : List Str) : List Str :=
  let r := foldEmit (cppLineStep code) ⟨false, false, false, 0⟩ 0 lines
  let st := r.1
  r.2 ++
    (if st.hasInclude = false ∧ 50 < code.length then
       [strL "Missing #include statements - C++ programs need #include <iostream>"]
     else []) ++
    (if st.hasMain = false ∧ 100 < code.length then
       [strL "Missing main function - C++ programs need int main()"]
     else []) ++
    (if st.bracketBalance ≠ 0 then
       [strL "Unmatched curly brackets: " ++
         (if 0 < st.bracketBalance then strL "missing" else strL "extra") ++
         strL " closing braces"]
     else [])

/- ======== detectSecurityVulnerabilities (lines 975-1025) ======== -/

/-- `securityPatterns` (lines 980-989). -/
def securityPatterns : List (Re × RFlags × Str) :=
  [(reSeq [rLit "password", wsS, rLit "=", wsS, clsP ['"', '\x27'],
           rePlus (clsN ['"', '\x27']), clsP ['"', '\x27']], fI,
    strL "Hardcoded password detected - use environment variables"),
   (reSeq [rLit "api", reOpt (clsP ['_', '-']), rLit "key", wsS, rLit "=", wsS,
           clsP ['"', '\x27'], rePlus (clsN ['"', '\x27']), clsP ['"', '\x27']], fI,
    strL "Hardcoded API key detected - use secure storage"),
   (reSeq [rLit "secret", wsS, rLit "=", wsS, clsP ['"', '\x27'],
           rePlus (clsN ['"', '\x27']), clsP ['"', '\x27']], fI,
    strL "Hardcoded secret detected - use secure configuration"),
   (reSeq [rLit "token", wsS, rLit "=", wsS, clsP ['"', '\x27'],
           rePlus (clsN ['"', '\x27']), clsP ['"', '\x27']], fI,
    strL "Hardcoded token detected - use secure storage"),
   (Re.alt (rLit "127.0.0.1") (rLit "localhost"), fI,
    strL "Hardcoded localhost - consider configuration"),
   (reSeq [rLit ".innerHTML", wsS, rLit "="], fN,
    strL "Potential XSS vulnerability - validate input"),
   (reSeq [rLit "eval", wsS, rLit "("], fN,
    strL "eval() is dangerous - avoid dynamic code execution"),
   (reSeq [rLit "document.write", wsS, rLit "("], fN,
    strL "document.write can be unsafe - use safer DOM methods")]

/-- `detectSecurityVulnerabilities` (lines 975-1025). -/
def detectSecurityVulnerabilities (code : Str) (language : Str) : List Str :=
  securityPatterns.flatMap (fun e =>
    if reTest e.2.1 e.1 code then [strL "Security: " ++ e.2.2] else []) ++
  (if language = strL "JavaScript" then
     (if strIncludes code (strL "dangerouslySetInnerHTML") then
        [strL "Security: dangerouslySetInnerHTML can lead to XSS - sanitize input"]
      else [])
   else if language = strL "Python" then
     (if strIncludes code (strL "input(") ∧ strIncludes code (strL "eval(") then
        [strL "Security: Never use eval() with user input - major security risk"]
      else [])
   else if language = strL "Java" then
     (if strIncludes code (strL "Runtime.getRuntime().exec(") then
        [strL "Security: Runtime.exec() can be dangerous - validate all inputs"]
      else [])
   else [])

/- ======== detectPerformanceIssues (lines 1028-1076) ======== -/

/-- `performancePatterns` (lines 1033-1038): regex, flags, whether the
regex carries the `g` flag, message.  Only the fourth pattern is global;
the first three are single-match regexes, so their `match` array has
length at most 1. -/
def performancePatterns : List (Re × RFlags × Bool × Str) :=
  [(reSeq [rLit "for", aS, rLit "for", aS, rLit "for"], fS, false,
    strL "Nested loops detected - consider optimization"),
   (reSeq [rLit "while", aS, rLit "while"], fS, false,
    strL "Nested while loops - check for efficiency"),
   (Re.alt (reSeq [rLit "console.log", aS, rLit "for"]) (reSeq [rLit "for", aS, rLit "console.log"]),
    fS, false, strL "Logging inside loops - performance impact"),
   (rLit ".length", fN, true, strL "Multiple .length calls - cache in variable")]

/-- `(code.match(pattern) || []).length` respecting the `g` flag. -/
def matchCount (fl : RFlags) (g : Bool) (re : Re) (s : Str) : Nat :=
  if g then countG fl re s else matchLen1 fl re s

/-- One iteration of the long-function loop (lines 1055-1069). -/
def perfFunStep (language : Str) (st : Bool × Nat) (_i : Nat) (line : Str) :
    (Bool × Nat) × List Str :=
  let st1 : Bool × Nat :=
    if strIncludes line (strL "function ") || strIncludes line (strL "def ") ||
        strIncludes line (strL "public ") || strIncludes line (strL "private ") then (true, 0)
    else st
  if st1.1 = true then
    let len := st1.2 + 1
    if strIncludes line (strL "\x7d") ||
        (language = strL "Python" ∧ strTrim line ≠ [] ∧ strStarts line (strL " ") = false) then
      ((false, len),
       if 50 < len then
         [strL "Performance: Function too long (" ++ decRepr len ++
           strL " lines) - consider breaking down"]
       else [])
    else ((true, len), [])
  else (st1, [])

/-- `detectPerformanceIssues` (lines 1028-1076): each pattern fires only
when its match count exceeds 2. -/
def detectPerformanceIssues (code : Str) (language : Str) (lines : List Str) : List Str :=
  performancePatterns.flatMap (fun e =>
    if 2 < matchCount e.2.1 e.2.2.1 e.1 code then [strL "Performance: " ++ e.2.2.2] else []) ++
  (foldEmit (perfFunStep language) (false, 0) 0 lines).2

/- ======== detectCodeQualityIssues (lines 1079-1138) ======== -/

/-- `qualityPatterns` (lines 1084-1088). -/
def qualityPatterns : List (Re × Str) :=
  [(reAlts [rLit "TODO", rLit "FIXME", rLit "HACK"],
    strL "TODO/FIXME comments found - address before production"),
   (rLit "magic number", strL "Magic numbers detected - use named constants"),
   (reSeq [rLit "copy", aS, rLit "paste"], strL "Possible copy-paste code - consider refactoring")]

/-- Increment the count of key `k` in an insertion-ordered association
list (the behaviour of `Map.set(k, (get(k) || 0) + 1)`). -/
def bumpCount : List (Str × Nat) → Str → List (Str × Nat)
  | [], k => [(k, 1)]
  | (k', m) :: t, k => if k' = k then (k', m + 1) :: t else (k', m) :: bumpCount t k

/-- The `duplicates` map of the quality scan (lines 1102-1109), in JS `Map`
insertion order. -/
def dupCounts (ls : List Str) : List (Str × Nat) :=
  ls.foldl (fun m l =>
    let t := strTrim l
    if 10 < t.length then bumpCount m t else m) []

/-- `badNames` (line 1126). -/
def badNames : List Str :=
  [strL "temp", strL "tmp", strL "var1", strL "var2", strL "data", strL "info",
   strL "obj", strL "item"]

/-- `detectCodeQualityIssues` (lines 1079-1138); its `language` parameter
is unused by the source. -/
def detectCodeQualityIssues (code : Str) (_language : Str) (lines : List Str) : List Str :=
  let codeLines := lines.filter (fun l =>
    strTrim l ≠ [] ∧ ¬strStarts (strTrim l) (strL "//") ∧ ¬strStarts (strTrim l) (strL "#"))
  qualityPatterns.flatMap (fun pr =>
    if reTest fI pr.1 code then [strL "Code Quality: " ++ pr.2] else []) ++
  (dupCounts codeLines).flatMap (fun pr =>
    if 2 < pr.2 then
      [strL "Code Quality: Duplicated code detected - \"" ++ pr.1.take 30 ++
        strL "...\" appears " ++ decRepr pr.2 ++ strL " times"]
    else []) ++
  (if 20 < codeLines.length ∧
      (lines.filter (fun l =>
        strStarts (strTrim l) (strL "//") || strStarts (strTrim l) (strL "#"))).length = 0 then
     [strL "Code Quality: No comments found - add documentation for complex logic"]
   else []) ++
  badNames.flatMap (fun b =>
    if strIncludes code b then
      [strL "Code Quality: Poor variable name \x27" ++ b ++ strL "\x27 - use descriptive names"]
    else [])

/- ======== detectLogicalErrors (lines 1141-1199) ======== -/

/-- `logicalPatterns` (lines 1146-1153). -/
def logicalPatterns : List (Re × Str) :=
  [(reSeq [rLit "if", wsS, rLit "(", wsS, rLit "true", wsS, rLit ")"],
    strL "Always-true condition - logic error"),
   (reSeq [rLit "if", wsS, rLit "(", wsS, rLit "false", wsS, rLit ")"],
    strL "Always-false condition - dead code"),
   (reSeq [rLit "while", wsS, rLit "(", wsS, rLit "true", wsS, rLit ")"],
    strL "Infinite loop detected - ensure exit condition"),
   (reSeq [rLit "for", wsS, rLit "(", wsS, rLit ";", wsS, rLit ";", wsS, rLit ")"],
    strL "Infinite for loop - missing conditions"),
   (reSeq [rLit "=", wsS, rLit "="], strL "Possible typo - double equals without space"),
   (reSeq [rLit "!", wsS, rLit "="], strL "Possible typo - exclamation equals without space")]

/-- One iteration of the unreachable-code loop (lines 1166-1177); the state
is `foundReturn`. -/
def unreachStep (st : Bool) (i : Nat) (line : Str) : Bool × List Str :=
  let p : Bool × List Str :=
    if strIncludes line (strL "return") then (true, [])
    else if st = true ∧ strTrim line ≠ [] ∧ ¬strStarts (strTrim line) (strL "//") ∧
        ¬strStarts (strTrim line) (strL "\x7d") then
      (false, [strL "Logic: Line " ++ decRepr (i + 1) ++
        strL " - Unreachable code after return statement"])
    else (st, [])
  (if strIncludes line (strL "\x7d") then false else p.1, p.2)

/-- `detectLogicalErrors` (lines 1141-1199). -/
def detectLogicalErrors (code : Str) (language : Str) (lines : List Str) : List Str :=
  logicalPatterns.flatMap (fun pr =>
    if reTest0 pr.1 code then [strL "Logic: " ++ pr.2] else []) ++
  (foldEmit unreachStep false 0 lines).2 ++
  (if language = strL "JavaScript" ∨ language = strL "TypeScript" then
     (if strIncludes code (strL ".length") ∧ ¬strIncludes code (strL "null") ∧
         ¬strIncludes code (strL "undefined") ∧ ¬strIncludes code (strL "?.") then
        (if ¬(strIncludes code (strL "if (") ∧
              (strIncludes code (strL "!= null") ∨ strIncludes code (strL "!== null"))) ∧
            10 < (splitLines code).length then
           [strL "Logic: Consider adding null checks for better safety"]
         else [])
      else [])
   else [])

/- ======== detectErrors (lines 188-283) ======== -/

/-- The language `switch` of `detectErrors` (lines 227-243): an
unsupported name falls through to the generic analyzer. -/
def langSpecificErrors (code : Str) (lines : List Str) (language : Str) : List Str :=
  if language = strL "Python" then detectComprehensivePythonErrors code lines
  else if language = strL "JavaScript" then detectComprehensiveJavaScriptErrors code lines
  else if language = strL "Java" then detectComprehensiveJavaErrors code lines
  else if language = strL "C++" then detectComprehensiveCppErrors code lines
  else detectGenericErrors code lines

/-- The `errors` array of `detectErrors` before de-duplication: the six
passes concatenated in source order (lines 216-274). -/
def rawErrors (code language : Str) : List Str :=
  let lines := splitLines code
  detectUniversalSyntaxErrors code lines ++
  langSpecificErrors code lines language ++
  detectSecurityVulnerabilities code language ++
  detectPerformanceIssues code language lines ++
  detectCodeQualityIssues code language lines ++
  detectLogicalErrors code language lines

/-- `[...new Set(errors)]`: JS `Set` keeps the first occurrence of each
element, in insertion order. -/
def setDedup (l : List Str) : List Str :=
  l.foldl (fun acc a => if a ∈ acc then acc else acc ++ [a]) []

/-- `detectErrors` (lines 188-283) over character lists. -/
def detectErrorsC (code language : Str) : List Str :=
  if code = [] then [strL "Invalid input: Code must be a valid string"]
  else if language = [] then [strL "Invalid input: Language must be specified"]
  else
    let trimmedCode := strTrim code
    if trimmedCode = [] then [strL "Code is empty - please paste some code to analyze"]
    else if isPlainText trimmedCode = true then
      [strL "This appears to be plain text, not code. Please paste actual programming code for analysis."]
    else
      let uniqueErrors := (setDedup (rawErrors code language)).filter
        (fun e => e ≠ [] ∧ strTrim e ≠ [])
      if uniqueErrors ≠ [] then uniqueErrors else [strL "No errors detected"]

/-- `detectErrors` at the `string` API. -/
def detectErrors (code language : String) : List String :=
  (detectErrorsC code.data language.data).map String.mk

/- ===================== Specification-side definitions ===================== -/

/-- The score formula asserted by the specification: each keyword signal
contributes `occurrences * 2`, each regex signal contributes
`occurrences * 3` (counting all its occurrences, as a global match would),
and the Python profile adds 5 when the fraction of non-empty lines
beginning with at least 4 spaces or a tab exceeds 1/5. -/
def claimedScore (code : Str) (p : LanguageProfile) : Nat :=
  let kw := p.keywords.foldl (fun acc k => acc + countOccur k code * 2) 0
  let syn := p.synPats.foldl (fun acc r => acc + countG fN r code * 3) 0
  let nonEmpty := (splitLines code).filter (fun l => l ≠ [])
  let indented := (nonEmpty.filter (fun l => strStarts l (strL "    ") || strStarts l ['\t'])).length
  let bonus :=
    if p.name = strL "Python" ∧ p.indentationSensitive = true then
      (if nonEmpty.length < 5 * indented then 5 else 0)
    else 0
  kw + syn + bonus

/-- The corrected score formula: keyword occurrences are still weighted 2,
but a regex signal contributes exactly 3 when it matches at all (its
occurrence count beyond the first is ignored, because the catalog's syntax
regexes carry no `g` flag), and the indentation bonus is computed over all
lines of the split (blank lines included) with `\s`-indentation. -/
def amendedScore (code : Str) (p : LanguageProfile) : Nat :=
  2 * (p.keywords.map (fun k => countOccur k code)).sum +
  3 * (p.synPats.filter (fun r => reTest fN r code)).length +
  (if p.name = strL "Python" ∧ p.indentationSensitive = true then pythonIndentBonus code else 0)

/-- Keep exactly the first occurrence of every element, deleting the later
duplicates; positions of kept elements and their relative order are those
of the first occurrences. -/
def firstOccursAux : Nat → List Str → List Str
  | 0, _ => []
  | Nat.succ _, [] => []
  | Nat.succ fuel, a :: t => a :: firstOccursAux fuel (t.filter (fun b => b ≠ a))

def firstOccurs (l : List Str) : List Str := firstOccursAux l.length l

/- ===================== Helper lemmas ===================== -/

theorem detectErrorsC_ne_nil (code language : Str) : detectErrorsC code language ≠ [] := by
  simp only [detectErrorsC]
  split_ifs with h1 h2 h3 h4 h5 <;> simp_all

/- ===================== Claims ===================== -/

/-- C1: for every input string and declared-language string, `detectErrors`
returns a non-empty list (the engine is total by construction in this
embedding, and it never throws: every internal failure branch of the
source is a caught-and-continue branch); empty code, then empty language,
then whitespace-only code each yield a single descriptive diagnostic; and
any unsupported language name is dispatched to the generic engine. -/
theorem c1_total_never_empty (code language : String) :
    detectErrors code language ≠ [] ∧
    (code.data = [] → detectErrors code language =
      ["Invalid input: Code must be a valid string"]) ∧
    (code.data ≠ [] → language.data = [] → detectErrors code language =
      ["Invalid input: Language must be specified"]) ∧
    (code.data ≠ [] → language.data ≠ [] → strTrim code.data = [] →
      detectErrors code language = ["Code is empty - please paste some code to analyze"]) ∧
    (language.data ≠ strL "Python" → language.data ≠ strL "JavaScript" →
      language.data ≠ strL "Java" → language.data ≠ strL "C++" →
      langSpecificErrors code.data (splitLines code.data) language.data =
        detectGenericErrors code.data (splitLines code.data)) := by
  refine ⟨?_, ?_, ?_, ?_, ?_⟩
  · intro h
    exact detectErrorsC_ne_nil code.data language.data (by simpa [detectErrors] using h)
  · intro h
    simp [detectErrors, detectErrorsC, h, strL]
  · intro h1 h2
    simp [detectErrors, detectErrorsC, h1, h2, strL]
  · intro h1 h2 h3
    simp [detectErrors, detectErrorsC, h1, h2, h3, strL]
  · intro h1 h2 h3 h4
    simp [langSpecificErrors, h1, h2, h3, h4]

set_option maxRecDepth 100000 in
/-- C1 witness: the theorem applied at concrete inputs. -/
theorem c1_total_never_empty_witness :
    detectErrors "" "Python" = ["Invalid input: Code must be a valid string"] ∧
    detectErrors "foo(1)" "Ruby" ≠ [] ∧
    langSpecificErrors (strL "foo(1)") (splitLines (strL "foo(1)")) (strL "Ruby") =
      detectGenericErrors (strL "foo(1)") (splitLines (strL "foo(1)")) :=
  ⟨(c1_total_never_empty "" "Python").2.1 rfl,
   (c1_total_never_empty "foo(1)" "Ruby").1,
   (c1_total_never_empty "foo(1)" "Ruby").2.2.2.2
     (by decide) (by decide) (by decide) (by decide)⟩

/-- C2: on the main analysis path (valid inputs, not the plain-text
short-circuit), if no analyzer pass appends a diagnostic then the result
is exactly the one-element sentinel, never the empty list. -/
theorem c2_sentinel (code language : Str)
    (h1 : code ≠ []) (h2 : language ≠ []) (h3 : strTrim code ≠ [])
    (h4 : isPlainText (strTrim code) = false)
    (h5 : rawErrors code language = []) :
    detectErrorsC code language = [strL "No errors detected"] := by
  simp [detectErrorsC, h1, h2, h3, h4, h5, setDedup]

set_option maxRecDepth 100000 in
/-- C2 witness: a concrete input for which every pass is silent. -/
theorem c2_sentinel_witness :
    rawErrors (strL "foo(1)") (strL "Ruby") = [] ∧
    detectErrorsC (strL "foo(1)") (strL "Ruby") = [strL "No errors detected"] :=
  ⟨by decide,
   c2_sentinel _ _ (by decide) (by decide) (by decide) (by decide) (by decide)⟩

set_option maxRecDepth 100000 in
/-- C7: for the text `"func(a, b"` (one unmatched opening parenthesis)
the generic analyzer reports exactly the unmatched-parentheses diagnostic
citing 1 opening and 0 closing occurrences. -/
theorem c7_generic_unmatched_parens :
    (detectGenericErrors (strL "func(a, b") (splitLines (strL "func(a, b"))).map String.mk =
      ["Unmatched parentheses: 1 opening, 0 closing"] := by decide

set_option maxRecDepth 100000 in
/-- C9: the nested-loops performance rule can never fire — its regex
carries no `g` flag, so the match array has length at most 1 and the
`matches.length > 2` guard is unsatisfiable.  At a concrete input with
three nested `for` loops, which the rule's own regex matches, the
performance scan emits nothing at all, contradicting the claim. -/
theorem c9_nested_loops_never_flagged :
    reTest fS (reSeq [rLit "for", aS, rLit "for", aS, rLit "for"])
      (strL "for(a){for(b){for(c){}}}") = true ∧
    detectPerformanceIssues (strL "for(a){for(b){for(c){}}}") (strL "JavaScript")
      (splitLines (strL "for(a){for(b){for(c){}}}")) = [] := by decide

set_option maxRecDepth 100000 in
/-- C6: `isPlainText` is true exactly when fewer than 2 indicator patterns
match and the length is under 100; `"hello world"` is plain text while
`"x = f(1,2); // note"` is not; and when the gate fires on the trimmed
code, `detectErrors` short-circuits to the single informational
diagnostic without running the pipeline. -/
theorem c6_plain_text_gate :
    (∀ text : Str, isPlainText text = true ↔
      (indicatorCount text < 2 ∧ text.length < 100)) ∧
    isPlainText (strL "hello world") = true ∧
    isPlainText (strL "x = f(1,2); // note") = false ∧
    (∀ code language : Str, code ≠ [] → language ≠ [] → strTrim code ≠ [] →
      isPlainText (strTrim code) = true →
      detectErrorsC code language =
        [strL "This appears to be plain text, not code. Please paste actual programming code for analysis."]) := by
  refine ⟨?_, by decide, by decide, ?_⟩
  · intro text
    unfold isPlainText
    split_ifs with h
    · subst h
      simp only [true_iff]
      exact ⟨by decide, by decide⟩
    · simp [Bool.and_eq_true, decide_eq_true_iff]
  · intro code language h1 h2 h3 h4
    simp [detectErrorsC, h1, h2, h3, h4]

set_option maxRecDepth 100000 in
/-- C6 witness: the short-circuit applied at `"hello world"`. -/
theorem c6_plain_text_gate_witness :
    detectErrorsC (strL "hello world") (strL "Python") =
      [strL "This appears to be plain text, not code. Please paste actual programming code for analysis."] :=
  c6_plain_text_gate.2.2.2 _ _ (by decide) (by decide) (by decide) (by decide)

theorem foldl_add_map {α : Type} (f : α → Nat) (l : List α) :
    ∀ a, l.foldl (fun acc x => acc + f x) a = a + (l.map f).sum := by
  induction l with
  | nil => intro a; simp
  | cons hd tl ih => intro a; simp [List.foldl_cons, ih, List.sum_cons]; omega

theorem sum_map_double (l : List Str) (code : Str) :
    (l.map (fun k => countOccur k code * 2)).sum = 2 * (l.map (fun k => countOccur k code)).sum := by
  induction l with
  | nil => simp
  | cons hd tl ih => simp [List.sum_cons, ih]; omega

theorem sum_map_matchLen1 (l : List Re) (code : Str) :
    (l.map (fun r => matchLen1 fN r code * 3)).sum =
      3 * (l.filter (fun r => reTest fN r code)).length := by
  induction l with
  | nil => simp
  | cons hd tl ih =>
    simp only [List.map_cons, List.sum_cons, List.filter_cons, matchLen1] at ih ⊢
    by_cases h : reTest fN hd code <;> simp only [h, if_true, if_false, ite_true, ite_false] <;>
      rw [ih] <;> simp <;> omega

/-- C4 (amended): for every text and profile, the score equals twice the
total keyword-occurrence count, plus 3 for each syntax regex that matches
at all (the regexes carry no `g` flag, so repeated occurrences do not
increase the score), plus the Python indentation bonus computed over all
split lines with `\s`-indentation. -/
theorem c4_score_formula_amended (code : Str) (p : LanguageProfile) :
    scoreProfile code p = amendedScore code p := by
  simp only [scoreProfile, amendedScore]
  rw [foldl_add_map, foldl_add_map, sum_map_double, sum_map_matchLen1]
  omega

set_option maxRecDepth 100000 in
/-- C4 counterexample: on `"def a(\ndef b("` the Python regex
`/def\s+\w+\s*\(/` occurs twice, so the claimed occurrences-times-3 formula
gives 10, but the implementation scores 7 (the non-global `match` array has
length 1 however often the regex occurs). -/
theorem c4_score_formula_counterexample :
    claimedScore (strL "def a(\ndef b(") pythonProfile = 10 ∧
    scoreProfile (strL "def a(\ndef b(") pythonProfile = 7 ∧
    scoreProfile (strL "def a(\ndef b(") pythonProfile ≠
      claimedScore (strL "def a(\ndef b(") pythonProfile := by
  refine ⟨by decide, by decide, by decide⟩

theorem le_foldl_max (l : List Nat) : ∀ a, a ≤ l.foldl Nat.max a := by
  induction l with
  | nil => intro a; simp
  | cons hd tl ih => intro a; exact le_trans (Nat.le_max_left a hd) (ih _)

theorem mem_le_foldl_max (l : List Nat) : ∀ a x, x ∈ l → x ≤ l.foldl Nat.max a := by
  induction l with
  | nil => intro a x h; simp at h
  | cons hd tl ih =>
    intro a x h
    rcases List.mem_cons.mp h with rfl | h
    · exact le_trans (Nat.le_max_right a x) (le_foldl_max tl _)
    · exact ih _ x h

theorem foldl_max_choice (l : List Nat) : ∀ a, l.foldl Nat.max a = a ∨ l.foldl Nat.max a ∈ l := by
  induction l with
  | nil => intro a; exact Or.inl rfl
  | cons hd tl ih =>
    intro a
    rcases ih (Nat.max a hd) with h | h
    · rcases Nat.le_total a hd with hle | hle
      · right
        have hmax : Nat.max a hd = hd := Nat.max_eq_right hle
        rw [List.foldl_cons, h, hmax]
        exact List.mem_cons_self hd tl
      · left
        have hmax : Nat.max a hd = a := Nat.max_eq_left hle
        rw [List.foldl_cons, h, hmax]
    · right; exact List.mem_cons_of_mem hd h

theorem find?_first {α : Type} (p : α → Bool) :
    ∀ (l : List α) (q : α), l.find? p = some q →
      ∃ i, l.get? i = some q ∧ p q = true ∧
        ∀ j r, j < i → l.get? j = some r → p r = false := by
  intro l
  induction l with
  | nil => intro q h; simp [List.find?] at h
  | cons hd tl ih =>
    intro q h
    by_cases hp : p hd
    · rw [List.find?_cons_of_pos _ hp, Option.some_inj] at h
      subst h
      exact ⟨0, rfl, hp, fun j r hj _ => absurd hj (Nat.not_lt_zero j)⟩
    · rw [List.find?_cons_of_neg _ (by simpa using hp)] at h
      obtain ⟨i, hget, hq, hprev⟩ := ih q h
      refine ⟨i + 1, by simpa using hget, hq, ?_⟩
      intro j r hj hjget
      match j with
      | 0 =>
        have hr : hd = r := by simpa using hjget
        subst hr
        simpa using hp
      | Nat.succ j' =>
        exact hprev j' r (Nat.lt_of_succ_lt_succ hj) (by simpa using hjget)

/-- C5: the classifier returns `none` exactly when the trimmed input is
empty or every profile scores 0; when it returns a language it is a
profile of maximal score, positive, and every catalog-earlier profile
scores strictly less (first profile at the maximum wins). -/
theorem c5_classifier (code : Str) :
    (detectLanguageC code = none ↔
      (strTrim code = [] ∨ ∀ p ∈ languagePatterns, scoreProfile code p = 0)) ∧
    (∀ name, detectLanguageC code = some name →
      ∃ i p, languagePatterns.get? i = some p ∧ p.name = name ∧
        0 < scoreProfile code p ∧
        (∀ q ∈ languagePatterns, scoreProfile code q ≤ scoreProfile code p) ∧
        (∀ j q, j < i → languagePatterns.get? j = some q →
          scoreProfile code q < scoreProfile code p)) := by
  have featA : ∀ q ∈ languagePatterns,
      scoreProfile code q ≤
        ((languagePatterns.map (fun p => (p.name, scoreProfile code p))).map Prod.snd).foldl
          Nat.max 0 := by
    intro q hq
    exact mem_le_foldl_max _ 0 _ (List.mem_map_of_mem _ (List.mem_map_of_mem _ hq))
  have featB :
      ((languagePatterns.map (fun p => (p.name, scoreProfile code p))).map Prod.snd).foldl
          Nat.max 0 = 0 ∨
        ∃ q ∈ languagePatterns,
          scoreProfile code q =
            ((languagePatterns.map (fun p => (p.name, scoreProfile code p))).map Prod.snd).foldl
              Nat.max 0 := by
    rcases foldl_max_choice
        ((languagePatterns.map (fun p => (p.name, scoreProfile code p))).map Prod.snd) 0 with
      h | h
    · exact Or.inl h
    · right
      obtain ⟨pr, hprmem, hsnd⟩ := List.mem_map.mp h
      obtain ⟨q, hq, hfq⟩ := List.mem_map.mp hprmem
      refine ⟨q, hq, ?_⟩
      rw [← hsnd, ← hfq]
  by_cases hc : code = []
  · subst hc
    constructor
    · constructor
      · exact fun _ => Or.inl (by decide)
      · intro _
        simp [detectLanguageC]
    · intro name h
      simp [detectLanguageC] at h
  · by_cases ht : strTrim code = []
    · constructor
      · constructor
        · exact fun _ => Or.inl ht
        · intro _
          simp only [detectLanguageC]
          rw [if_neg hc, if_pos ht]
      · intro name h
        simp only [detectLanguageC] at h
        rw [if_neg hc, if_pos ht] at h
        exact absurd h (by simp)
    · by_cases hM0 :
        ((languagePatterns.map (fun p => (p.name, scoreProfile code p))).map Prod.snd).foldl
          Nat.max 0 = 0
      · have hall : ∀ p ∈ languagePatterns, scoreProfile code p = 0 := fun p hp =>
          Nat.le_zero.mp (hM0 ▸ featA p hp)
        constructor
        · constructor
          · exact fun _ => Or.inr hall
          · intro _
            simp only [detectLanguageC]
            rw [if_neg hc, if_neg ht, if_pos hM0]
        · intro name h
          simp only [detectLanguageC] at h
          rw [if_neg hc, if_neg ht, if_pos hM0] at h
          exact absurd h (by simp)
      · constructor
        · constructor
          · intro h
            exfalso
            simp only [detectLanguageC] at h
            rw [if_neg hc, if_neg ht, if_neg hM0] at h
            rw [Option.map_eq_none'] at h
            rw [List.find?_eq_none] at h
            rcases featB with hB | ⟨q, hq, hqe⟩
            · exact hM0 hB
            · exact h _ (List.mem_map_of_mem _ hq) (by simpa using hqe)
          · intro h
            rcases h with h | h
            · exact absurd h ht
            · exfalso
              rcases featB with hB | ⟨q, hq, hqe⟩
              · exact hM0 hB
              · rw [h q hq] at hqe
                exact hM0 hqe.symm
        · intro name h
          simp only [detectLanguageC] at h
          rw [if_neg hc, if_neg ht, if_neg hM0] at h
          obtain ⟨q, hfind, hq1⟩ := Option.map_eq_some'.mp h
          obtain ⟨i, hget, hpq, hprev⟩ := find?_first _ _ _ hfind
          have hq2 : q.2 =
              ((languagePatterns.map (fun p => (p.name, scoreProfile code p))).map Prod.snd).foldl
                Nat.max 0 := by simpa using hpq
          rw [List.get?_map] at hget
          obtain ⟨p, hpget, hfp⟩ := Option.map_eq_some'.mp hget
          have hpname : p.name = name := by rw [← hq1, ← hfp]
          have hpscore : scoreProfile code p = q.2 := by rw [← hfp]
          refine ⟨i, p, hpget, hpname, ?_, ?_, ?_⟩
          · rw [hpscore, hq2]
            exact Nat.pos_of_ne_zero hM0
          · intro q' hq'
            rw [hpscore, hq2]
            exact featA q' hq'
          · intro j r hj hjget
            have hrmem : r ∈ languagePatterns := List.get?_mem hjget
            have hscores : (languagePatterns.map
                (fun p => (p.name, scoreProfile code p))).get? j =
                  some (r.name, scoreProfile code r) := by
              rw [List.get?_map, hjget]
              rfl
            have hne := hprev j _ hj hscores
            have hrne : scoreProfile code r ≠
                ((languagePatterns.map (fun p => (p.name, scoreProfile code p))).map Prod.snd).foldl
                  Nat.max 0 := by simpa using hne
            rw [hpscore, hq2]
            exact lt_of_le_of_ne (featA r hrmem) hrne

set_option maxRecDepth 100000 in
/-- C5 witness: the classifier applied at concrete inputs: a no-signal
input is unknown, a Python-looking input is not. -/
theorem c5_classifier_witness :
    detectLanguageC (strL "x") = none ∧
    detectLanguageC (strL "def f():\n    return 1") ≠ none :=
  ⟨(c5_classifier (strL "x")).1.mpr (Or.inr (by decide)),
   fun h => by
    have hx := (c5_classifier (strL "def f():\n    return 1")).1.mp h
    revert hx
    decide⟩

set_option maxRecDepth 100000 in
/-- C5 counterexample: on the whitespace-only input `" "` the classifier
returns `none` through its trimmed-empty short-circuit even though the
maximum profile score is not 0 — the Python profile scores 3 (its `/^\s+/`
signal matches) while the other three profiles score 0; so "returns the
unknown result exactly when the maximum score is 0" is false. -/
theorem c5_classifier_counterexample :
    detectLanguageC (strL " ") = none ∧
    scoreProfile (strL " ") pythonProfile = 3 ∧
    scoreProfile (strL " ") javascriptProfile = 0 ∧
    scoreProfile (strL " ") javaProfile = 0 ∧
    scoreProfile (strL " ") cppProfile = 0 := by
  refine ⟨by decide, by decide, by decide, by decide, by decide⟩


theorem firstOccursAux_eq : ∀ (f1 f2 : Nat) (l : List Str),
    l.length ≤ f1 → l.length ≤ f2 → firstOccursAux f1 l = firstOccursAux f2 l := by
  intro f1
  induction f1 with
  | zero =>
    intro f2 l h1 _
    have : l = [] := List.eq_nil_of_length_eq_zero (Nat.le_zero.mp h1)
    subst this
    cases f2 <;> rfl
  | succ f1 ih =>
    intro f2 l h1 h2
    match f2, l with
    | 0, l =>
      have : l = [] := List.eq_nil_of_length_eq_zero (Nat.le_zero.mp h2)
      subst this
      rfl
    | Nat.succ f2, [] => rfl
    | Nat.succ f2, a :: t =>
      simp only [firstOccursAux]
      congr 1
      exact ih f2 _
        (le_trans (List.length_filter_le _ _) (Nat.le_of_succ_le_succ h1))
        (le_trans (List.length_filter_le _ _) (Nat.le_of_succ_le_succ h2))

theorem firstOccurs_cons (a : Str) (t : List Str) :
    firstOccurs (a :: t) = a :: firstOccurs (t.filter (fun b => b ≠ a)) := by
  unfold firstOccurs
  simp only [List.length_cons, firstOccursAux]
  congr 1
  exact firstOccursAux_eq _ _ _ (List.length_filter_le _ _) (le_refl _)

theorem mem_firstOccursAux : ∀ (fuel : Nat) (l : List Str) (x : Str),
    x ∈ firstOccursAux fuel l → x ∈ l := by
  intro fuel
  induction fuel with
  | zero => intro l x h; simp [firstOccursAux] at h
  | succ fuel ih =>
    intro l x h
    match l with
    | [] => simp [firstOccursAux] at h
    | a :: t =>
      simp only [firstOccursAux, List.mem_cons] at h
      rcases h with rfl | h
      · exact List.mem_cons_self _ _
      · exact List.mem_cons_of_mem _ (List.mem_of_mem_filter (ih _ _ h))

theorem nodup_firstOccursAux : ∀ (fuel : Nat) (l : List Str),
    (firstOccursAux fuel l).Nodup := by
  intro fuel
  induction fuel with
  | zero => intro l; simp [firstOccursAux]
  | succ fuel ih =>
    intro l
    match l with
    | [] => simp [firstOccursAux]
    | a :: t =>
      simp only [firstOccursAux]
      refine List.Nodup.cons ?_ (ih _)
      intro ha
      have := List.mem_filter.mp (mem_firstOccursAux _ _ _ ha)
      simp at this

theorem nodup_firstOccurs (l : List Str) : (firstOccurs l).Nodup :=
  nodup_firstOccursAux _ _

theorem setDedup_from : ∀ (l acc : List Str),
    l.foldl (fun acc a => if a ∈ acc then acc else acc ++ [a]) acc =
      acc ++ firstOccurs (l.filter (fun x => x ∉ acc)) := by
  intro l
  induction l with
  | nil => intro acc; simp [firstOccurs, firstOccursAux]
  | cons a t ih =>
    intro acc
    by_cases h : a ∈ acc
    · simp only [List.foldl_cons, if_pos h, List.filter_cons]
      rw [ih acc]
      congr 2
      simp [h]
    · simp only [List.foldl_cons, if_neg h, List.filter_cons]
      rw [ih (acc ++ [a])]
      have hpos : (decide (a ∉ acc)) = true := by simpa using h
      simp only [hpos, if_true]
      rw [firstOccurs_cons]
      have hff : (t.filter (fun x => x ∉ acc)).filter (fun b => b ≠ a) =
          t.filter (fun x => x ∉ acc ++ [a]) := by
        rw [List.filter_filter]
        apply List.filter_congr
        intro x _
        by_cases h1 : x = a <;> by_cases h2 : x ∈ acc <;> simp [h1, h2]
      rw [hff]
      simp [List.append_assoc]

theorem setDedup_eq_firstOccurs (l : List Str) : setDedup l = firstOccurs l := by
  unfold setDedup
  rw [setDedup_from l []]
  simp only [List.nil_append]
  congr 1
  apply List.filter_eq_self.mpr
  intro a _
  simp

/-- C3: the aggregated result never contains duplicate messages nor
empty/whitespace-only entries; on the main path the result is exactly the
keep-first-occurrence de-duplication of the raw pass output (each message
at the position of its first producer, all others in emission order),
filtered of blank entries, or the sentinel when that filter is empty. -/
theorem c3_dedup_first_wins (code language : Str) :
    (detectErrorsC code language).Nodup ∧
    (∀ e ∈ detectErrorsC code language, strTrim e ≠ []) ∧
    (code ≠ [] → language ≠ [] → strTrim code ≠ [] → isPlainText (strTrim code) = false →
      (detectErrorsC code language =
          (firstOccurs (rawErrors code language)).filter (fun e => e ≠ [] ∧ strTrim e ≠ []) ∨
        detectErrorsC code language = [strL "No errors detected"])) := by
  simp only [detectErrorsC]
  split_ifs with h1 h2 h3 h4 h5
  · refine ⟨by simp, ?_, fun hc _ _ _ => absurd h1 hc⟩
    intro e he
    simp only [List.mem_singleton] at he
    subst he
    decide
  · refine ⟨by simp, ?_, fun _ hl _ _ => absurd h2 hl⟩
    intro e he
    simp only [List.mem_singleton] at he
    subst he
    decide
  · refine ⟨by simp, ?_, fun _ _ htr _ => absurd h3 htr⟩
    intro e he
    simp only [List.mem_singleton] at he
    subst he
    decide
  · refine ⟨by simp, ?_, fun _ _ _ hpt => absurd (h4.symm.trans hpt) (by decide)⟩
    intro e he
    simp only [List.mem_singleton] at he
    subst he
    decide
  · refine ⟨?_, ?_, fun _ _ _ _ => Or.inl ?_⟩
    · exact List.Nodup.filter _
        (by rw [setDedup_eq_firstOccurs]; exact nodup_firstOccurs _)
    · intro e he
      exact (of_decide_eq_true (List.mem_filter.mp he).2).2
    · rw [setDedup_eq_firstOccurs]
  · refine ⟨by simp, ?_, fun _ _ _ _ => Or.inr rfl⟩
    intro e he
    simp only [List.mem_singleton] at he
    subst he
    decide

set_option maxRecDepth 400000 in
/-- C3 witness: a concrete input whose Python pass emits the same message
twice; the raw list holds it twice, the result once, and the theorem's
main-path equation applies. -/
theorem c3_witness :
    (detectErrorsC (strL "pirnt(1); pritn(2);") (strL "Python")).Nodup ∧
    (rawErrors (strL "pirnt(1); pritn(2);") (strL "Python")).count
        (lineMsg 1 (strL "Typo detected - use \x27print\x27")) = 2 ∧
    (detectErrorsC (strL "pirnt(1); pritn(2);") (strL "Python")).count
        (lineMsg 1 (strL "Typo detected - use \x27print\x27")) = 1 ∧
    (detectErrorsC (strL "pirnt(1); pritn(2);") (strL "Python") =
        (firstOccurs (rawErrors (strL "pirnt(1); pritn(2);") (strL "Python"))).filter
          (fun e => e ≠ [] ∧ strTrim e ≠ []) ∨
      detectErrorsC (strL "pirnt(1); pritn(2);") (strL "Python") = [strL "No errors detected"]) :=
  ⟨(c3_dedup_first_wins _ _).1, by decide, by decide,
   (c3_dedup_first_wins _ _).2.2 (by decide) (by decide) (by decide) (by decide)⟩


theorem isDigit_decReprAux : ∀ (fuel n : Nat) (acc : Str),
    (∀ c ∈ acc, isDigitChar c = true) → ∀ c ∈ decReprAux fuel n acc, isDigitChar c = true := by
  intro fuel
  induction fuel with
  | zero => intro n acc hacc c hc; exact hacc c hc
  | succ fuel ih =>
    intro n acc hacc c hc
    have hd : isDigitChar (Char.ofNat (48 + n % 10)) = true := by
      have hball : ∀ m, m < 10 → isDigitChar (Char.ofNat (48 + m)) = true := by decide
      exact hball _ (Nat.mod_lt _ (by norm_num))
    simp only [decReprAux] at hc
    split at hc
    · rcases List.mem_cons.mp hc with rfl | hc
      · exact hd
      · exact hacc c hc
    · refine ih _ _ ?_ c hc
      intro c' hc'
      rcases List.mem_cons.mp hc' with rfl | hc'
      · exact hd
      · exact hacc c' hc'

theorem isDigit_decRepr (n : Nat) : ∀ c ∈ decRepr n, isDigitChar c = true :=
  isDigit_decReprAux _ _ _ (by simp)

theorem colon_notin_decRepr (n : Nat) : ':' ∉ decRepr n := fun h =>
  absurd (isDigit_decRepr n ':' h) (by decide)

theorem splitAtMarker (m : Char) : ∀ (a b x y : Str), m ∉ a → m ∉ b →
    a ++ m :: x = b ++ m :: y → a = b ∧ x = y := by
  intro a
  induction a with
  | nil =>
    intro b x y _ hb h
    match b with
    | [] =>
      simp only [List.nil_append, List.cons.injEq] at h
      exact ⟨rfl, h.2⟩
    | c :: b' =>
      simp only [List.nil_append, List.cons_append, List.cons.injEq] at h
      exact absurd (h.1 ▸ List.mem_cons_self m b') (by
        intro hmem
        exact hb (by simpa [h.1] using List.mem_cons_self c b'))
  | cons c a' ih =>
    intro b x y ha hb h
    match b with
    | [] =>
      simp only [List.cons_append, List.nil_append, List.cons.injEq] at h
      exact absurd (List.mem_cons_self c a') (by simpa [h.1] using ha)
    | d :: b' =>
      simp only [List.cons_append, List.cons.injEq] at h
      have := ih b' x y (fun hm => ha (List.mem_cons_of_mem _ hm))
        (fun hm => hb (List.mem_cons_of_mem _ hm)) h.2
      exact ⟨by rw [h.1, this.1], this.2⟩

theorem lineMsg_inj {m n : Nat} {t u : Str} (h : lineMsg m t = lineMsg n u) : t = u := by
  unfold lineMsg at h
  have h1 : strL "Line " ++ (decRepr m ++ (strL ": " ++ t)) =
      strL "Line " ++ (decRepr n ++ (strL ": " ++ u)) := by
    simpa only [List.append_assoc] using h
  have h2 : decRepr m ++ (strL ": " ++ t) = decRepr n ++ (strL ": " ++ u) :=
    List.append_cancel_left h1
  have h3 : decRepr m ++ ':' :: (' ' :: t) = decRepr n ++ ':' :: (' ' :: u) := h2
  have h4 := splitAtMarker ':' _ _ _ _ (colon_notin_decRepr m) (colon_notin_decRepr n) h3
  have h5 := h4.2
  injection h5

theorem lineMsg_head (n : Nat) (t : Str) : (lineMsg n t).head? = some 'L' := rfl

theorem foldEmit_not_mem {s : Type} (f : s → Nat → Str → s × List Str) (x : Str)
    (h : ∀ st i l, x ∉ (f st i l).2) :
    ∀ (ls : List Str) (st : s) (i : Nat), x ∉ (foldEmit f st i ls).2 := by
  intro ls
  induction ls with
  | nil => intro st i; simp [foldEmit]
  | cons l t ih =>
    intro st i
    simp only [foldEmit]
    intro hmem
    rcases List.mem_append.mp hmem with h1 | h2
    · exact h _ _ _ h1
    · exact ih _ _ h2

theorem foldEmit_mem {s : Type} (f : s → Nat → Str → s × List Str) (x : Str) :
    ∀ (ls : List Str) (n : Nat) (line : Str) (st : s) (i : Nat),
      ls.get? n = some line → (∀ st', x ∈ (f st' (i + n) line).2) →
      x ∈ (foldEmit f st i ls).2 := by
  intro ls
  induction ls with
  | nil => intro n line st i hget _; simp at hget
  | cons l t ih =>
    intro n line st i hget hf
    simp only [foldEmit]
    match n, hget with
    | 0, hget =>
      apply List.mem_append_left
      have : l = line := by simpa using hget
      subst this
      simpa using hf st
    | Nat.succ n', hget =>
      apply List.mem_append_right
      refine ih n' line _ (i + 1) (by simpa using hget) ?_
      intro st'
      have := hf st'
      have harith : i + (n' + 1) = i + 1 + n' := by omega
      rwa [harith] at this

theorem jsTypoTail_inj {c c' : Str} (h : jsTypoTail c = jsTypoTail c') : c = c' := by
  unfold jsTypoTail at h
  exact List.append_cancel_left (List.append_cancel_right h)

theorem jsTypoScan_shape : ∀ (table : List (Re × Str)) (lis : List Nat) (n : Nat) (line : Str)
    (x : Str), x ∈ (jsTypoScan table lis n line).2 →
      ∃ pr ∈ table, x = lineMsg n (jsTypoTail pr.2) ∧ reTest0 (wordRe pr.2) line = false := by
  intro table
  induction table with
  | nil => intro lis n line x h; simp [jsTypoScan] at h
  | cons pr t ih =>
    intro lis n line x h
    simp only [jsTypoScan] at h
    rcases List.mem_append.mp h with h1 | h2
    · by_cases hc : (testG fN pr.1 line (lis.headD 0)).1 && !(reTest0 (wordRe pr.2) line)
      · rw [if_pos hc] at h1
        have hx : x = lineMsg n (jsTypoTail pr.2) := by simpa using h1
        refine ⟨pr, List.mem_cons_self _ _, hx, ?_⟩
        have := (Bool.and_eq_true _ _).mp hc
        simpa using this.2
      · rw [if_neg hc] at h1
        simp at h1
    · obtain ⟨pr', hmem, hx⟩ := ih _ _ _ _ h2
      exact ⟨pr', List.mem_cons_of_mem _ hmem, hx⟩

theorem javaTypoTail_inj {w w' c c' : Str} (hw : '\x27' ∉ w) (hw' : '\x27' ∉ w')
    (h : javaTypoTail w c = javaTypoTail w' c') : c = c' := by
  unfold javaTypoTail at h
  have h1 := List.append_cancel_right h
  have h2 : strL "Typo detected - \x27" ++ (w ++ ('\x27' :: (strL " should be \x27" ++ c))) =
      strL "Typo detected - \x27" ++ (w' ++ ('\x27' :: (strL " should be \x27" ++ c'))) := by
    simpa only [List.append_assoc] using h1
  have h3 := List.append_cancel_left h2
  have h4 := splitAtMarker '\x27' _ _ _ _ hw hw' h3
  exact List.append_cancel_left h4.2

theorem javaTypoScan_shape (n : Nat) (line : Str) (x : Str)
    (h : x ∈ javaTypoScan n line) :
    ∃ pr ∈ javaTypos, x = lineMsg n (javaTypoTail pr.1 pr.2) ∧
      reTest0 (wordRe pr.2) line = false := by
  unfold javaTypoScan at h
  obtain ⟨pr, hmem, hx⟩ := List.mem_flatMap.mp h
  by_cases hc : reTest0 (wordRe pr.1) line && !(reTest0 (wordRe pr.2) line)
  · rw [if_pos hc] at hx
    refine ⟨pr, hmem, by simpa using hx, ?_⟩
    have := (Bool.and_eq_true _ _).mp hc
    simpa using this.2
  · rw [if_neg hc] at hx
    simp at hx

theorem cppTypoScan_shape (n : Nat) (line : Str) (x : Str)
    (h : x ∈ cppTypoScan n line) :
    ∃ pr ∈ cppTypos, x = lineMsg n (strL "Check spelling of \x27" ++ pr.2 ++ strL "\x27") ∧
      reTest0 (wordRe pr.2) line = false := by
  unfold cppTypoScan at h
  obtain ⟨pr, hmem, hx⟩ := List.mem_flatMap.mp h
  by_cases hc : reTest0 (wordRe pr.1) line && !(reTest0 (wordRe pr.2) line)
  · rw [if_pos hc] at hx
    refine ⟨pr, hmem, by simpa using hx, ?_⟩
    have := (Bool.and_eq_true _ _).mp hc
    simpa using this.2
  · rw [if_neg hc] at hx
    simp at hx

/-- C8 (amended): in the JavaScript, Java and C++ typo scans, a misspelling
diagnostic naming a correction is never emitted for a line on which the
correctly spelled token (as `\bcorrect\b`) occurs; the Python typo scan has
no such guard and is excluded (see the counterexample). -/
theorem c8_typo_guard_amended :
    (∀ (lis : List Nat) (n : Nat) (line : Str) (pr : Re × Str), pr ∈ jsTypos →
      reTest0 (wordRe pr.2) line = true →
      lineMsg n (jsTypoTail pr.2) ∉ (jsTypoScan jsTypos lis n line).2) ∧
    (∀ (n : Nat) (line : Str) (pr : Str × Str), pr ∈ javaTypos →
      reTest0 (wordRe pr.2) line = true →
      lineMsg n (javaTypoTail pr.1 pr.2) ∉ javaTypoScan n line) ∧
    (∀ (n : Nat) (line : Str) (pr : Str × Str), pr ∈ cppTypos →
      reTest0 (wordRe pr.2) line = true →
      lineMsg n (strL "Check spelling of \x27" ++ pr.2 ++ strL "\x27") ∉ cppTypoScan n line) := by
  refine ⟨?_, ?_, ?_⟩
  · intro lis n line pr _ hcorrect hmem
    obtain ⟨pr', _, hx, hguard⟩ := jsTypoScan_shape jsTypos lis n line _ hmem
    have heq : jsTypoTail pr.2 = jsTypoTail pr'.2 := lineMsg_inj hx
    rw [jsTypoTail_inj heq] at hcorrect
    rw [hcorrect] at hguard
    exact absurd hguard (by decide)
  · intro n line pr hpr hcorrect hmem
    obtain ⟨pr', hpr', hx, hguard⟩ := javaTypoScan_shape n line _ hmem
    have hwfree : ∀ q ∈ javaTypos, '\x27' ∉ q.1 := by decide
    have heq : pr.2 = pr'.2 :=
      javaTypoTail_inj (hwfree pr hpr) (hwfree pr' hpr') (lineMsg_inj hx)
    rw [heq] at hcorrect
    rw [hcorrect] at hguard
    exact absurd hguard (by decide)
  · intro n line pr _ hcorrect hmem
    obtain ⟨pr', _, hx, hguard⟩ := cppTypoScan_shape n line _ hmem
    have heq : pr.2 = pr'.2 :=
      List.append_cancel_left (List.append_cancel_right (lineMsg_inj hx))
    rw [heq] at hcorrect
    rw [hcorrect] at hguard
    exact absurd hguard (by decide)

set_option maxRecDepth 100000 in
/-- C8 counterexample: the Python typo scan has no correct-token guard —
on the single line `pirnt print`, which contains both the misspelling
`pirnt` and the correct token `print`, the Python engine still emits the
typo diagnostic for that pair. -/
theorem c8_typo_guard_counterexample :
    reTest0 (wordRe (strL "pirnt")) (strL "pirnt print") = true ∧
    reTest0 (wordRe (strL "print")) (strL "pirnt print") = true ∧
    lineMsg 1 (strL "Typo detected - use \x27print\x27") ∈
      detectComprehensivePythonErrors (strL "pirnt print")
        (splitLines (strL "pirnt print")) := by
  refine ⟨by decide, by decide, by decide⟩

set_option maxRecDepth 100000 in
/-- C8 witness: the guard applied concretely in each of the three engines. -/
theorem c8_typo_guard_witness :
    lineMsg 1 (jsTypoTail (strL "console")) ∉
      (jsTypoScan jsTypos (List.replicate 21 0) 1 (strL "consoel console")).2 ∧
    lineMsg 1 (javaTypoTail (strL "pubilc") (strL "public")) ∉
      javaTypoScan 1 (strL "pubilc public") ∧
    lineMsg 1 (strL "Check spelling of \x27return\x27") ∉
      cppTypoScan 1 (strL "retrun return") :=
  ⟨c8_typo_guard_amended.1 (List.replicate 21 0) 1 _
      (wordRe (strL "consoel"), strL "console")
      (by unfold jsTypos; exact List.mem_cons_self _ _) (by decide),
   c8_typo_guard_amended.2.1 1 _ (strL "pubilc", strL "public")
      (by unfold javaTypos; exact List.mem_cons_self _ _) (by decide),
   c8_typo_guard_amended.2.2 1 _ (strL "retrun", strL "return")
      (by decide) (by decide)⟩


theorem jsLineStep_strict_no_var (n : Nat) :
    ∀ (st : List Nat × Int × Int) (i : Nat) (l : Str),
      lineMsg n jsVarTail ∉ (jsLineStep true st i l).2 := by
  have hA : ∀ pr ∈ jsTypos, jsTypoTail pr.2 ≠ jsVarTail := by decide
  have hB : ∀ e ∈ jsErrorPatterns, e.2.2 ≠ jsVarTail := by decide
  intro st i l
  simp only [jsLineStep]
  by_cases hskip : (strTrim l = [] || strStarts (strTrim l) (strL "//") ||
      strStarts (strTrim l) (strL "/*")) = true
  · rw [if_pos hskip]
    simp
  · rw [if_neg hskip]
    simp only [Bool.not_true, Bool.and_false]
    intro hmem
    rcases List.mem_append.mp hmem with hmem | hvar
    · rcases List.mem_append.mp hmem with htypo | hpat
      · obtain ⟨pr', hpr', hx, _⟩ := jsTypoScan_shape jsTypos st.1 (i + 1) l _ htypo
        exact hA pr' hpr' (lineMsg_inj hx).symm
      · obtain ⟨e, he, hx⟩ := List.mem_flatMap.mp hpat
        by_cases hc : (reTest e.2.1 e.1 l && !(strIncludes l (strL "//"))) = true
        · rw [if_pos hc] at hx
          have : lineMsg n jsVarTail = lineMsg (i + 1) e.2.2 := by simpa using hx
          exact hB e he (lineMsg_inj this).symm
        · rw [if_neg hc] at hx
          simp at hx
    · simp at hvar

/-- C10: the JS engine's discourage-`var` diagnostic is conditioned on
strict mode: when the text contains `"use strict"` (double or single
quoted) the diagnostic is never emitted for any line; otherwise every
non-blank non-comment line containing `var ` produces it (at that line's
number). -/
theorem c10_var_strict_mode (code : Str) (lines : List Str) :
    ((strIncludes code (strL "\"use strict\"") ||
        strIncludes code (strL "\x27use strict\x27")) = true →
      ∀ n, lineMsg n jsVarTail ∉ detectComprehensiveJavaScriptErrors code lines) ∧
    ((strIncludes code (strL "\"use strict\"") ||
        strIncludes code (strL "\x27use strict\x27")) = false →
      ∀ n line, lines.get? n = some line →
        strTrim line ≠ [] →
        strStarts (strTrim line) (strL "//") = false →
        strStarts (strTrim line) (strL "/*") = false →
        strIncludes line (strL "var ") = true →
        lineMsg (n + 1) jsVarTail ∈ detectComprehensiveJavaScriptErrors code lines) := by
  constructor
  · intro hs n hmem
    simp only [detectComprehensiveJavaScriptErrors] at hmem
    rw [hs] at hmem
    rcases List.mem_append.mp hmem with hmem | hmod
    · rcases List.mem_append.mp hmem with hmem | hperr
      · rcases List.mem_append.mp hmem with hfold | hberr
        · exact foldEmit_not_mem _ _ (jsLineStep_strict_no_var n) lines _ 0 hfold
        · split at hberr
          · have hx := List.mem_singleton.mp hberr
            have : some 'L' = some 'U' := by rw [← lineMsg_head n jsVarTail, hx]; rfl
            exact absurd this (by decide)
          · simp at hberr
      · split at hperr
        · have hx := List.mem_singleton.mp hperr
          have : some 'L' = some 'U' := by rw [← lineMsg_head n jsVarTail, hx]; rfl
          exact absurd this (by decide)
        · simp at hperr
    · obtain ⟨e, _, hx⟩ := List.mem_flatMap.mp hmod
      split at hx
      · have hxe := List.mem_singleton.mp hx
        have : some 'L' = some 'M' := by rw [← lineMsg_head n jsVarTail, hxe]; rfl
        exact absurd this (by decide)
      · simp at hx
  · intro hs n line hget htrim h1 h2 hvar
    simp only [detectComprehensiveJavaScriptErrors]
    rw [hs]
    apply List.mem_append_left
    apply List.mem_append_left
    apply List.mem_append_left
    refine foldEmit_mem _ _ lines n line _ 0 hget ?_
    intro st'
    simp only [jsLineStep]
    rw [if_neg (by simp [htrim, h1, h2])]
    apply List.mem_append_right
    rw [Nat.zero_add]
    simp [hvar]

set_option maxRecDepth 100000 in
/-- C10 witness: with strict mode the diagnostic is absent, without it a
`var ` line produces it. -/
theorem c10_var_strict_mode_witness :
    lineMsg 1 jsVarTail ∈
      detectComprehensiveJavaScriptErrors (strL "var x") (splitLines (strL "var x")) ∧
    lineMsg 2 jsVarTail ∉
      detectComprehensiveJavaScriptErrors (strL "\x27use strict\x27\nvar x = 1;")
        (splitLines (strL "\x27use strict\x27\nvar x = 1;")) :=
  ⟨(c10_var_strict_mode (strL "var x") (splitLines (strL "var x"))).2
      (by decide) 0 (strL "var x") (by decide) (by decide) (by decide) (by decide) (by decide),
   (c10_var_strict_mode (strL "\x27use strict\x27\nvar x = 1;")
      (splitLines (strL "\x27use strict\x27\nvar x = 1;"))).1 (by decide) 2⟩

end CRB

